import Mathlib

/-!
# kubectl-cosmo: a shallow embedding of the console and chart-manager commands

The Go sources under `pkg/cmd` and `pkg/internal/chartmanager` are embedded as
Lean functions.  Every call that leaves the program (the kubeconfig loader, the
Kubernetes API, `net.Listen`, the OCI registry, the Helm actions, the terminal
and the browser) is answered by an oracle field of a world record (`Cluster`,
`Helm`) and recorded, in program order, in a log of events.  Go `error` values
are identified with their message; Go strings are Lean strings, whose order
(code points, lexicographic) coincides with Go's byte-wise comparison on
UTF-8 text.
-/

namespace KubectlCosmo

/-! ## Errors and effectful code -/

/-- A Go `error` value, identified with its message. -/
abbrev Error := String

/-- Effectful code over events `ε`: it extends the log of external calls made
so far and either returns a value or returns an error (`return ..., err`). -/
def Act (ε α : Type) : Type := List ε → Except Error α × List ε

namespace Act

/-- Normal return of a value. -/
def ret {ε α : Type} (a : α) : Act ε α := fun log => (Except.ok a, log)

/-- Early return with a non-nil error. -/
def fail {ε α : Type} (e : Error) : Act ε α := fun log => (Except.error e, log)

/-- Sequencing: an error of the first part ends the whole computation. -/
def andThen {ε α β : Type} (m : Act ε α) (f : α → Act ε β) : Act ε β := fun log =>
  match m log with
  | (Except.ok a, log1) => f a log1
  | (Except.error e, log1) => (Except.error e, log1)

/-- An external call: the event is logged and the collaborator's answer is
handed to the caller, which inspects it the way the Go code inspects `err`. -/
def call {ε α : Type} (ev : ε) (answer : α) : Act ε α := fun log => (Except.ok answer, log ++ [ev])

/-- Runs `m` and hands its outcome to the caller as a value, for call sites that
look at `err` without returning it. -/
def attempt {ε α : Type} (m : Act ε α) : Act ε (Except Error α) := fun log =>
  ((Except.ok (m log).1), (m log).2)

/-- The outcome of a computation started on an empty log. -/
def run {ε α : Type} (m : Act ε α) : Except Error α × List ε := m []

instance {ε : Type} : Monad (Act ε) where
  pure := ret
  bind := andThen

end Act

/-! ## `pkg/cmd/console.go` -/

/-- Constant `startPort`. -/
def startPort : Nat := 8080

/-- Constant `endPort`. -/
def endPort : Nat := 8280

/-- Constant `cosmonicNamespace`. -/
def cosmonicNamespace : String := "cosmonic-system"

/-- Constant `consoleDeployment`. -/
def consoleDeployment : String := "console"

/-- The Go verb `%q` applied to a string without characters that need escaping. -/
def quoted (s : String) : String := "\"" ++ s ++ "\""

/-- Variable `errNoContext`. -/
def errNoContext : Error :=
  "no context is currently set, use " ++ quoted "kubectl config use-context <context>" ++
    " to select a new one"

/-- The fields of `api.Context` that the program reads. -/
structure Context where
  Namespace : String
  Cluster : String
  AuthInfo : String
deriving DecidableEq, Repr

/-- Function `api.NewContext`: a context with empty fields. -/
def NewContext : Context := { Namespace := "", Cluster := "", AuthInfo := "" }

/-- The fields of `api.Config` that the program reads; `Contexts` is the map
lookup `Contexts[name]`, `none` when the key is absent. -/
structure Config where
  CurrentContext : String
  Contexts : String → Option Context

/-- The zero value of `api.Config`. -/
def Config.zero : Config := { CurrentContext := "", Contexts := fun _ => none }

/-- The fields of `appsv1.Deployment` that the program reads. -/
structure Deployment where
  ReadyReplicas : Int
  MatchLabels : List (String × String)
deriving DecidableEq, Repr

/-- The fields of `corev1.Pod` that the program could consult. -/
structure Pod where
  Name : String
  Phase : String
  Ready : Bool
deriving DecidableEq, Repr

/-- The fields of `rest.Config` that the program reads. -/
structure RestConfig where
  Host : String
deriving DecidableEq, Repr

/-- How the forwarder started by `ForwardPorts` ends up: it signals readiness
by closing `readyCh` and keeps running, or it returns (with an error or with
nil) before readiness. -/
inductive TunnelOutcome where
  | ready
  | returned (err : Option Error)
deriving DecidableEq, Repr

/-- The environment of the console command: the answers of the kubeconfig
loader, the Kubernetes API, the local TCP stack and the tunnel machinery. -/
structure Cluster where
  /-- Answer of `configFlags.ToRawKubeConfigLoader().RawConfig()`. -/
  rawConfig : Config × Option Error
  /-- Answer of `kubeConfig.ClientConfig()`. -/
  clientConfig : Except Error RestConfig
  /-- Answer of `kubernetes.NewForConfig`. -/
  newForConfig : Option Error
  /-- Answer of `Deployments(namespace).Get(name)`. -/
  getDeployment : String → String → Except Error Deployment
  /-- Rendering `labels.Set(matchLabels).AsSelector().String()`. -/
  labelSelector : List (String × String) → String
  /-- Answer of `Pods(namespace).List` for a label selector. -/
  listPods : String → String → Except Error (List Pod)
  /-- Answer of `net.Listen("tcp", ":port")`: `none` when the bind succeeds. -/
  listen : Nat → Option Error
  /-- Answer of `spdy.RoundTripperFor`. -/
  roundTripperFor : Option Error
  /-- Answer of `portforward.New` for a pod name and a list of port mappings. -/
  portforwardNew : String → List String → Option Error
  /-- Outcome of `portForwarder.ForwardPorts()`. -/
  forwardPorts : TunnelOutcome
  /-- Answer of `reader.ReadBytes('\n')` on standard input: the bytes read, closed
  by the newline when one was read, and the error (no more input, read failure). -/
  readBytes : String × Option Error

/-- External calls of the console command, in the order the log records them. -/
inductive ConsoleEvent where
  | rawConfig
  | clientConfig
  | newForConfig
  | getDeployment (ns name : String)
  | listPods (ns selector : String)
  | listen (port : Nat)
  | close (port : Nat)
  | logPrintf (line : String)
  | roundTripperFor
  | portforwardNew (ns pod subresource : String) (ports : List String)
  | forwardPorts
  | printf (text : String)
  | readStdin
  | openURL (url : String)
  | park
deriving DecidableEq, Repr

/-- Struct `ConsoleConfig`; `resultingContext` is a pointer, nil until `Complete`
sets it. -/
structure ConsoleConfig where
  resultingContext : Option Context
  resultingContextName : String
  args : List String
  rawConfig : Config
  userSpecifiedCluster : String
  userSpecifiedContext : String
  userSpecifiedAuthInfo : String

/-- The receiver built by `NewCmdConsole`: every field at its zero value. -/
def ConsoleConfig.new : ConsoleConfig :=
  { resultingContext := none, resultingContextName := "", args := [],
    rawConfig := Config.zero, userSpecifiedCluster := "", userSpecifiedContext := "",
    userSpecifiedAuthInfo := "" }

/-- The ports the loop of `findLocalPort` visits, in order:
`for portNum := startPort; portNum <= endPort; portNum++`. -/
def portRange : List Nat := List.range' startPort (endPort + 1 - startPort)

/-- The loop body of `findLocalPort` over the ports still to visit: listen, and
on success close the listener and return the port. -/
def findLocalPortLoop (w : Cluster) : List Nat → Act ConsoleEvent Nat
  | [] => Act.fail "local port for port-forwarding not found"
  | portNum :: rest => do
    let err ← Act.call (ConsoleEvent.listen portNum) (w.listen portNum)
    match err with
    | none => do
      let _ ← Act.call (ConsoleEvent.close portNum) ()
      pure portNum
    | some _ => findLocalPortLoop w rest

/-- Method `findLocalPort`. -/
def ConsoleConfig.findLocalPort (w : Cluster) : Act ConsoleEvent Nat :=
  findLocalPortLoop w portRange

/-- Library function `strings.Split(s, sep)` for a one-character separator, on
the characters of `s`: the pieces between the separators, never an empty list. -/
def splitChars (sep : Char) : List Char → List (List Char)
  | [] => [[]]
  | c :: cs =>
    if c = sep then [] :: splitChars sep cs
    else
      match splitChars sep cs with
      | [] => [[c]]
      | piece :: pieces => (c :: piece) :: pieces

/-- Library function `strings.Split(s, "/")`. -/
def stringsSplitSlash (s : String) : List String :=
  (splitChars '/' s.data).map String.mk

/-- Library function `strings.TrimLeft(s, cutset)`. -/
def stringsTrimLeft (s cutset : String) : String :=
  String.mk (s.data.dropWhile (fun c => decide (c ∈ cutset.data)))

/-- Function `generateContextName`. -/
def generateContextName (fromContext : Context) : String :=
  let name := fromContext.Namespace
  let name :=
    if fromContext.Cluster.length > 0 then name ++ "/" ++ fromContext.Cluster else name
  let name :=
    if fromContext.AuthInfo.length > 0 then
      let cleanAuthInfo := (stringsSplitSlash fromContext.AuthInfo).headD ""
      name ++ "/" ++ cleanAuthInfo
    else name
  name

/-- Assignment through the pointer `c.resultingContext`. -/
def ConsoleConfig.setResulting (c : ConsoleConfig) (f : Context → Context) : ConsoleConfig :=
  { c with resultingContext := c.resultingContext.map f }

/-- Method `Complete`.  The receiver after the call is the value returned; when
`Complete` returns an error the command returns at once and the receiver is not
used again. -/
def ConsoleConfig.Complete (w : Cluster) (c : ConsoleConfig) (args : List String) :
    Act ConsoleEvent ConsoleConfig := do
  let c := { c with args := args }
  let loaded ← Act.call ConsoleEvent.rawConfig w.rawConfig
  let c := { c with rawConfig := loaded.1 }
  match loaded.2 with
  | some err => Act.fail err
  | none =>
    match c.rawConfig.Contexts c.rawConfig.CurrentContext with
    | none => Act.fail errNoContext
    | some currentContext =>
      let c := { c with resultingContext := some NewContext }
      let c := c.setResulting (fun r => { r with Cluster := currentContext.Cluster })
      let c := c.setResulting (fun r => { r with AuthInfo := currentContext.AuthInfo })
      let c :=
        if c.userSpecifiedContext.length > 0 then
          let c := { c with resultingContextName := c.userSpecifiedContext }
          match c.rawConfig.Contexts c.userSpecifiedContext with
          | some userCtx => { c with resultingContext := some userCtx }
          | none => c
        else c
      let c :=
        if c.userSpecifiedCluster.length > 0 then
          c.setResulting (fun r => { r with Cluster := c.userSpecifiedCluster })
        else c
      let c :=
        if c.userSpecifiedAuthInfo.length > 0 then
          c.setResulting (fun r => { r with AuthInfo := c.userSpecifiedAuthInfo })
        else c
      let c :=
        if c.userSpecifiedContext.length = 0 then
          { c with resultingContextName :=
              generateContextName (c.resultingContext.getD NewContext) }
        else c
      pure c

/-- Method `k8sClient`; the clientset is the world itself, so only the
`rest.Config` is returned. -/
def ConsoleConfig.k8sClient (w : Cluster) : Act ConsoleEvent RestConfig := do
  let loaded ← Act.call ConsoleEvent.clientConfig w.clientConfig
  match loaded with
  | Except.error err => Act.fail err
  | Except.ok config =>
    let err ← Act.call ConsoleEvent.newForConfig w.newForConfig
    match err with
    | some err => Act.fail err
    | none => pure config

/-- Method `verifyConsoleDeployment`. -/
def ConsoleConfig.verifyConsoleDeployment (w : Cluster) : Act ConsoleEvent Bool := do
  let _ ← ConsoleConfig.k8sClient w
  let got ← Act.call (ConsoleEvent.getDeployment cosmonicNamespace consoleDeployment)
    (w.getDeployment cosmonicNamespace consoleDeployment)
  match got with
  | Except.error err => Act.fail err
  | Except.ok deployment =>
    if deployment.ReadyReplicas > 0 then pure true else pure false

/-- Method `Validate`. -/
def ConsoleConfig.Validate (w : Cluster) (c : ConsoleConfig) : Act ConsoleEvent Unit := do
  if c.rawConfig.CurrentContext.length = 0 then Act.fail errNoContext
  else
    let hasConsole ← ConsoleConfig.verifyConsoleDeployment w
    if hasConsole then pure ()
    else Act.fail "error with retrieving console deployment status"

/-- Method `PortForward`, up to the moment `ForwardPorts` either signals
readiness or returns; `ctxClosed` is `ctx.Err() != nil`.  A returned error is
the error of the computation; the value tells whether the forwarder is running
after readiness or returned nil. -/
def ConsoleConfig.PortForward (w : Cluster) (ctxClosed : Bool) (localPort : Nat) :
    Act ConsoleEvent TunnelOutcome := do
  if ctxClosed then Act.fail "context is already closed"
  else
    let config ← ConsoleConfig.k8sClient w
    let got ← Act.call (ConsoleEvent.getDeployment cosmonicNamespace consoleDeployment)
      (w.getDeployment cosmonicNamespace consoleDeployment)
    match got with
    | Except.error err => Act.fail err
    | Except.ok consoleDeploy =>
      let selector := w.labelSelector consoleDeploy.MatchLabels
      let listed ← Act.call (ConsoleEvent.listPods cosmonicNamespace selector)
        (w.listPods cosmonicNamespace selector)
      match listed with
      | Except.error err => Act.fail err
      | Except.ok [] => Act.fail "no pod found for console deployment"
      | Except.ok (first :: _) =>
        let hostIP := stringsTrimLeft config.Host "htps:/"
        let _ ← Act.call (ConsoleEvent.logPrintf ("hostIP is " ++ hostIP)) ()
        let err ← Act.call ConsoleEvent.roundTripperFor w.roundTripperFor
        match err with
        | some err => Act.fail err
        | none =>
          let ports := [toString localPort ++ ":" ++ toString 8080]
          let err ← Act.call
            (ConsoleEvent.portforwardNew cosmonicNamespace first.Name "portforward" ports)
            (w.portforwardNew first.Name ports)
          match err with
          | some err => Act.fail err
          | none =>
            let outcome ← Act.call ConsoleEvent.forwardPorts w.forwardPorts
            match outcome with
            | TunnelOutcome.returned (some err) => Act.fail err
            | other => pure other

/-- Method `Run`.  The goroutine running `PortForward` and the `select` on
`readyCh` and `errChan` are sequentialised: the select proceeds with whichever
of readiness and the goroutine's return the tunnel produces.  Both results of
`reader.ReadBytes` are dropped, as in the source.  The final `select {}` is the
event `park`, after which nothing happens. -/
def ConsoleConfig.Run (w : Cluster) : Act ConsoleEvent Unit := do
  let localPort ← ConsoleConfig.findLocalPort w
  let tunnel ← Act.attempt (ConsoleConfig.PortForward w false localPort)
  match tunnel with
  | Except.ok TunnelOutcome.ready =>
    let _ ← Act.call (ConsoleEvent.printf
      ("Press enter to connect to the console at http://localhost:" ++ toString localPort ++
        "\nCtrl+C when finished\n")) ()
    let _ ← Act.call ConsoleEvent.readStdin w.readBytes
    let _ ← Act.call (ConsoleEvent.openURL ("http://localhost:" ++ toString localPort)) ()
    let _ ← Act.call ConsoleEvent.park ()
    pure ()
  | Except.ok (TunnelOutcome.returned _) =>
    let _ ← Act.call
      (ConsoleEvent.printf "Error with starting port forwarding, error <nil>") ()
    pure ()
  | Except.error err =>
    let _ ← Act.call
      (ConsoleEvent.printf ("Error with starting port forwarding, error " ++ err)) ()
    Act.fail err

/-- The `RunE` closure of `NewCmdConsole`: `Complete`, `Validate`, `Run`. -/
def consoleRunE (w : Cluster) (c : ConsoleConfig) (args : List String) :
    Act ConsoleEvent Unit := do
  let c ← ConsoleConfig.Complete w c args
  ConsoleConfig.Validate w c
  ConsoleConfig.Run w

/-- The portion of an identifier before its first `/`, the whole identifier when
it contains none (the auth-info head segment of the specification). -/
def headSegment (s : String) : String :=
  String.mk (s.data.takeWhile (fun c => decide (c ≠ '/')))

/-- The number of `/` separators in a name. -/
def slashCount (s : String) : Nat := s.data.count '/'

/-! ## `pkg/internal/chartmanager/chartmanager.go` -/

/-- Constant `cosmonicChartRegistry`. -/
def cosmonicChartRegistry : String := "oci://ghcr.io/cosmonic"

/-- A release of the release store: its name and `rel.Chart.AppVersion()`. -/
structure Release where
  Name : String
  AppVersion : String
deriving DecidableEq, Repr

/-- A loaded chart: its name and `chart.Metadata.Dependencies` (nil when the
chart declares none). -/
structure Chart where
  Name : String
  Dependencies : Option (List String)
deriving DecidableEq, Repr

/-- The fields of `action.Install` that `Install` sets. -/
structure InstallClient where
  DryRunOption : String
  ReleaseName : String
  Version : String
deriving DecidableEq, Repr

/-- The fields of `action.Upgrade` that `Update` sets. -/
structure UpgradeClient where
  Namespace : String
  DryRunOption : String
  Version : String
deriving DecidableEq, Repr

/-- The fields of `action.Uninstall` that `UnInstall` sets. -/
structure UninstallClient where
  DeletionPropagation : String
deriving DecidableEq, Repr

/-- The environment of the chart commands: the answers of the Helm runtime and
of the OCI registry. -/
structure Helm where
  /-- Value of the environment variable `HELM_DRIVER`. -/
  helmDriver : String
  /-- Answer of `helmAction.Init`. -/
  init : Option Error
  /-- Answer of the list action over all states, for a name filter. -/
  listRun : String → Except Error (List Release)
  /-- Answer of `remote.NewRepository` for a repository reference. -/
  newRepository : String → Option Error
  /-- Answer of `repo.Tags` for a repository reference: the batches of tags it
  hands to the callback, in order, and the error it returns at the end. -/
  repoTags : String → List (List String) × Option Error
  /-- Answer of `registry.NewClient`. -/
  newRegistryClient : Option Error
  /-- Answer of `LocateChart` for a chart reference and a pinned version: the
  path of the chart archive. -/
  locateChart : String → String → Except Error String
  /-- Answer of `loader.Load` for a path. -/
  loadChart : String → Except Error Chart
  /-- Answer of `action.CheckDependencies`. -/
  actionCheckDependencies : Chart → List String → Option Error
  /-- Answer of the dependency update of `downloader.Manager` for a chart path. -/
  downloaderUpdate : String → Option Error
  /-- Answer of the install action. -/
  installRun : InstallClient → Chart → Option Error
  /-- Answer of the upgrade action for a release name. -/
  upgradeRun : UpgradeClient → String → Chart → Option Error
  /-- Answer of the uninstall action for a release name: the response (rendered
  with `%v`), nil when absent, and the error. -/
  uninstallRun : UninstallClient → String → Option String × Option Error

/-- External calls of the chart commands, in the order the log records them. -/
inductive HelmEvent where
  | init (ns helmDriver : String)
  | listRun (filter : String)
  | newRepository (ref : String)
  | repoTags (ref : String)
  | newRegistryClient
  | locateChart (ref version : String)
  | loadChart (path : String)
  | actionCheckDependencies (chart : Chart)
  | downloaderUpdate (chartPath keyring : String)
  | installRun (client : InstallClient) (chart : Chart)
  | upgradeRun (client : UpgradeClient) (release : String) (chart : Chart)
  | uninstallRun (client : UninstallClient) (release : String)
  | logPrintf (line : String)
  | println (line : String)
deriving DecidableEq, Repr

/-- Function `New`: initialises the action configuration in `cosmonic-system`. -/
def ChartManager.New (h : Helm) (helmDriver : String) : Act HelmEvent Unit := do
  let err ← Act.call (HelmEvent.init cosmonicNamespace helmDriver) h.init
  match err with
  | some err => Act.fail err
  | none => pure ()

/-- Function `newRegistryClient`. -/
def newRegistryClient (h : Helm) : Act HelmEvent Unit := do
  let err ← Act.call HelmEvent.newRegistryClient h.newRegistryClient
  match err with
  | some err => Act.fail err
  | none => pure ()

/-- Method `GetInstalledChartVersion`. -/
def ChartManager.GetInstalledChartVersion (h : Helm) (chartName : String) :
    Act HelmEvent String := do
  let listed ← Act.call (HelmEvent.listRun chartName) (h.listRun chartName)
  match listed with
  | Except.error err => Act.fail ("failed to run list action: " ++ err)
  | Except.ok (rel :: _) => pure rel.AppVersion
  | Except.ok [] => Act.fail "chart not found"

/-- Library function `sort.Strings`: the ascending rearrangement of the slice.
The order on strings is total, so the result does not depend on the sorting
algorithm. -/
def sortStrings (l : List String) : List String := l.insertionSort (fun a b => a ≤ b)

/-- The callback `tagRetriever` run over the batches in order: each call
assigns `result = tags`. -/
def tagRetriever (result : List String) (batches : List (List String)) : List String :=
  batches.foldl (fun _ tags => tags) result

/-- Method `GetRepoChartVersion`. -/
def ChartManager.GetRepoChartVersion (h : Helm) (chartName : String) :
    Act HelmEvent String := do
  let ref := "ghcr.io/cosmonic/" ++ chartName
  let err ← Act.call (HelmEvent.newRepository ref) (h.newRepository ref)
  match err with
  | some err => Act.fail err
  | none =>
    let listing ← Act.call (HelmEvent.repoTags ref) (h.repoTags ref)
    let result := tagRetriever [] listing.1
    match listing.2 with
    | some err => Act.fail err
    | none =>
      if result.length = 0 then Act.fail "repository tag not found"
      else
        let result := sortStrings result
        pure (result.getD (result.length - 1) "")

/-- Method `CheckDependencies`; the reloaded chart is assigned to the local
parameter only. -/
def ChartManager.CheckDependencies (h : Helm) (chart : Chart) (chartPath keyRing : String) :
    Act HelmEvent Unit := do
  match chart.Dependencies with
  | none => pure ()
  | some dependencies =>
    let err ← Act.call (HelmEvent.actionCheckDependencies chart)
      (h.actionCheckDependencies chart dependencies)
    match err with
    | none => pure ()
    | some _ =>
      let err ← Act.call (HelmEvent.downloaderUpdate chartPath keyRing)
        (h.downloaderUpdate chartPath)
      match err with
      | some err => Act.fail err
      | none =>
        let reloaded ← Act.call (HelmEvent.loadChart chartPath) (h.loadChart chartPath)
        match reloaded with
        | Except.error err =>
          Act.fail ("failed to reload chart after dependency update, error " ++ err)
        | Except.ok _ => pure ()

/-- Method `chartRegistryName`. -/
def ChartManager.chartRegistryName (chartName : String) : String :=
  cosmonicChartRegistry ++ "/" ++ chartName

/-- Method `Install`. -/
def ChartManager.Install (h : Helm) (chartName : String) : Act HelmEvent Unit := do
  let installed ← Act.attempt (ChartManager.GetInstalledChartVersion h chartName)
  let alreadyInstalled : Bool :=
    match installed with
    | Except.ok ver => decide (ver ≠ "")
    | Except.error _ => false
  if alreadyInstalled then Act.fail "chart is already installed"
  else
    let releaseVersion ← ChartManager.GetRepoChartVersion h chartName
    let installClient : InstallClient :=
      { DryRunOption := "none", ReleaseName := "cosmonic-control", Version := releaseVersion }
    newRegistryClient h
    let registryName := ChartManager.chartRegistryName chartName
    let located ← Act.call (HelmEvent.locateChart registryName installClient.Version)
      (h.locateChart registryName installClient.Version)
    match located with
    | Except.error err => Act.fail err
    | Except.ok chartPath =>
      let loaded ← Act.call (HelmEvent.loadChart chartPath) (h.loadChart chartPath)
      match loaded with
      | Except.error err => Act.fail err
      | Except.ok chart =>
        ChartManager.CheckDependencies h chart chartPath ""
        let err ← Act.call (HelmEvent.installRun installClient chart)
          (h.installRun installClient chart)
        match err with
        | some err => Act.fail err
        | none => pure ()

/-- Method `UnInstall`. -/
def ChartManager.UnInstall (h : Helm) (chartName : String) : Act HelmEvent Unit := do
  let uninstallClient : UninstallClient := { DeletionPropagation := "foreground" }
  let answer ← Act.call (HelmEvent.uninstallRun uninstallClient chartName)
    (h.uninstallRun uninstallClient chartName)
  match answer.2 with
  | some err => Act.fail err
  | none =>
    match answer.1 with
    | some result => Act.fail ("uninstall returned " ++ result)
    | none => pure ()

/-- Method `Update`. -/
def ChartManager.Update (h : Helm) (chartName : String) : Act HelmEvent Unit := do
  let repoVersion ← ChartManager.GetRepoChartVersion h chartName
  let installedVersion ← ChartManager.GetInstalledChartVersion h chartName
  if repoVersion = installedVersion ∨ installedVersion > repoVersion then
    Act.fail ("chart is already at the latest version " ++ repoVersion)
  else
    let upgradeClient : UpgradeClient :=
      { Namespace := cosmonicNamespace, DryRunOption := "none", Version := repoVersion }
    newRegistryClient h
    let registryName := ChartManager.chartRegistryName chartName
    let located ← Act.call (HelmEvent.locateChart registryName upgradeClient.Version)
      (h.locateChart registryName upgradeClient.Version)
    match located with
    | Except.error err => Act.fail err
    | Except.ok chartPath =>
      let loaded ← Act.call (HelmEvent.loadChart chartPath) (h.loadChart chartPath)
      match loaded with
      | Except.error err => Act.fail err
      | Except.ok chart =>
        ChartManager.CheckDependencies h chart chartPath ""
        let err ← Act.call (HelmEvent.upgradeRun upgradeClient chartName chart)
          (h.upgradeRun upgradeClient chartName chart)
        match err with
        | some err => Act.fail err
        | none => pure ()

/-! ## `pkg/cmd/nexus.go`, `pkg/cmd/hostgroup.go`, `pkg/cmd/version.go` -/

/-- Constant `controlChartName`. -/
def controlChartName : String := "cosmonic-control"

/-- Constant `hostgroupRepoChartName`. -/
def hostgroupRepoChartName : String := "cosmonic-control-hostgroup"

/-- Constant `hostgroupInstalledChartName`. -/
def hostgroupInstalledChartName : String := "hostgroup"

/-- Method `Initialize` of `HostgroupConfig`, `NexusConfig` and `VersionConfig`:
the three bodies are the same. -/
def Initialize (h : Helm) : Act HelmEvent Unit :=
  ChartManager.New h h.helmDriver

/-- Method `HostgroupConfig.Run`. -/
def HostgroupConfig.Run (h : Helm) : Act HelmEvent Unit := do
  let installedVer ← ChartManager.GetInstalledChartVersion h controlChartName
  let repoVer ← ChartManager.GetRepoChartVersion h controlChartName
  let _ ← Act.call (HelmEvent.logPrintf
    ("nexus installed version [" ++ installedVer ++ "], repo version [" ++ repoVer ++ "]\n")) ()
  pure ()

/-- The `RunE` closure of the bare `hostgroup` command: `Initialize`, `Validate`
(which returns nil), `Run`. -/
def hostgroupRunE (h : Helm) : Act HelmEvent Unit := do
  Initialize h
  HostgroupConfig.Run h

/-- The `RunE` closure of `hostgroup install`. -/
def hostgroupInstallRunE (h : Helm) : Act HelmEvent Unit := do
  Initialize h
  ChartManager.Install h hostgroupRepoChartName

/-- The `RunE` closure of `hostgroup update`. -/
def hostgroupUpdateRunE (h : Helm) : Act HelmEvent Unit := do
  Initialize h
  ChartManager.Update h hostgroupInstalledChartName

/-- The `RunE` closure of `hostgroup uninstall`. -/
def hostgroupUninstallRunE (h : Helm) : Act HelmEvent Unit := do
  Initialize h
  ChartManager.UnInstall h hostgroupInstalledChartName

/-- Method `VersionConfig.logChartVersion`. -/
def VersionConfig.logChartVersion (h : Helm)
    (componentName installedChartName repoChartName : String) : Act HelmEvent String := do
  let installedVer ← ChartManager.GetInstalledChartVersion h installedChartName
  let repoVer ← ChartManager.GetRepoChartVersion h repoChartName
  pure ("component " ++ componentName ++ ": installed [" ++ installedVer ++
    "], available [" ++ repoVer ++ "]")

/-- Method `VersionConfig.Run`. -/
def VersionConfig.Run (h : Helm) : Act HelmEvent Unit := do
  let logTo ← VersionConfig.logChartVersion h "nexus control" controlChartName controlChartName
  let _ ← Act.call (HelmEvent.println logTo) ()
  let logTo ← VersionConfig.logChartVersion h "hostgroup" hostgroupInstalledChartName
    hostgroupRepoChartName
  let _ ← Act.call (HelmEvent.println logTo) ()
  pure ()

/-! ## Concrete worlds -/

/-- The world of scenario 5: ports 8080..8090 are bound, every other port is free. -/
def contendedCluster : Cluster :=
  { rawConfig := (Config.zero, none)
    clientConfig := Except.ok { Host := "https://10.0.0.1:6443" }
    newForConfig := none
    getDeployment := fun _ _ => Except.ok { ReadyReplicas := 1, MatchLabels := [] }
    labelSelector := fun _ => ""
    listPods := fun _ _ => Except.ok []
    listen := fun p => if p ≤ 8090 then some "bind: address already in use" else none
    roundTripperFor := none
    portforwardNew := fun _ _ => none
    forwardPorts := TunnelOutcome.ready
    readBytes := ("\n", none) }

/-- A Helm runtime with an empty release store and a registry without tags, in
which every action succeeds. -/
def emptyHelm : Helm :=
  { helmDriver := ""
    init := none
    listRun := fun _ => Except.ok []
    newRepository := fun _ => none
    repoTags := fun _ => ([], none)
    newRegistryClient := none
    locateChart := fun ref version => Except.ok ("/cache/" ++ ref ++ "-" ++ version ++ ".tgz")
    loadChart := fun path => Except.ok { Name := path, Dependencies := none }
    actionCheckDependencies := fun _ _ => none
    downloaderUpdate := fun _ => none
    installRun := fun _ _ => none
    upgradeRun := fun _ _ _ => none
    uninstallRun := fun _ _ => (none, none) }

/-- A registry that enumerates its tags in two batches, `v0.2.0` then `v0.1.0`. -/
def pagedRegistry : Helm :=
  { emptyHelm with repoTags := fun _ => ([["v0.2.0"], ["v0.1.0"]], none) }

/-- A registry whose enumeration ends with an empty batch after `v0.1.0`. -/
def trailingEmptyBatch : Helm :=
  { emptyHelm with repoTags := fun _ => ([["v0.1.0"], []], none) }

/-- The world of scenario 6: the installed release reports `v0.3.0` and the
registry lists `v0.2.0` and `v0.3.0`. -/
def versionComparison : Helm :=
  { emptyHelm with
    listRun := fun name => Except.ok [{ Name := name, AppVersion := "v0.3.0" }]
    repoTags := fun _ => ([["v0.2.0", "v0.3.0"]], none) }

/-- A cluster in which the console deployment has one ready replica and one pod,
port 8080 is free and the tunnel becomes ready; the kubeconfig is `raw`. -/
def healthyCluster (raw : Config) : Cluster :=
  { rawConfig := (raw, none)
    clientConfig := Except.ok { Host := "https://10.0.0.1:6443" }
    newForConfig := none
    getDeployment := fun _ _ => Except.ok { ReadyReplicas := 1, MatchLabels := [("app", "console")] }
    labelSelector := fun _ => "app=console"
    listPods := fun _ _ => Except.ok [{ Name := "console-0", Phase := "Running", Ready := true }]
    listen := fun _ => none
    roundTripperFor := none
    portforwardNew := fun _ _ => none
    forwardPorts := TunnelOutcome.ready
    readBytes := ("\n", none) }

/-- A kubeconfig with `current-context: ""` that has a context entry under the
empty name. -/
def emptyNameConfig : Config :=
  { CurrentContext := ""
    Contexts := fun name =>
      if name = "" then some { Namespace := "", Cluster := "kind", AuthInfo := "admin" } else none }

/-- A kubeconfig whose current context `dev` names cluster `kind` and user
`admin/token`. -/
def devConfig : Config :=
  { CurrentContext := "dev"
    Contexts := fun name =>
      if name = "dev" then some { Namespace := "", Cluster := "kind", AuthInfo := "admin/token" }
      else none }

/-- A kubeconfig whose current context `dev` names no cluster. -/
def noClusterConfig : Config :=
  { CurrentContext := "dev"
    Contexts := fun name =>
      if name = "dev" then some { Namespace := "", Cluster := "", AuthInfo := "admin" } else none }

/-- A runtime with two releases, `hostgroup` at 0.1.0 and `cosmonic-control` at
0.9.0, and a registry that lists 0.2.0 for the hostgroup chart and 0.9.0 for the
control chart. -/
def twoReleases : Helm :=
  { emptyHelm with
    listRun := fun name =>
      if name = "hostgroup" then Except.ok [{ Name := "hostgroup", AppVersion := "0.1.0" }]
      else if name = "cosmonic-control" then
        Except.ok [{ Name := "cosmonic-control", AppVersion := "0.9.0" }]
      else Except.ok []
    repoTags := fun ref =>
      if ref = "ghcr.io/cosmonic/cosmonic-control-hostgroup" then ([["0.2.0"]], none)
      else if ref = "ghcr.io/cosmonic/cosmonic-control" then ([["0.9.0"]], none)
      else ([], none) }

/-- A runtime with an empty release store and a registry that lists 0.2.0 for
every chart. -/
def freshCluster : Helm :=
  { emptyHelm with repoTags := fun _ => ([["0.2.0"]], none) }

/-- A runtime whose release store holds `hostgroup` at 0.1.0 and whose registry
lists 0.2.0 for every repository. -/
def hostgroupInstalled : Helm :=
  { emptyHelm with
    listRun := fun name =>
      if name = "hostgroup" then Except.ok [{ Name := "hostgroup", AppVersion := "0.1.0" }]
      else Except.ok []
    repoTags := fun _ => ([["0.2.0"]], none) }

/-- A runtime whose release store cannot be listed, with a registry that lists
0.2.0 for every repository and actions that succeed. -/
def unreachableStore : Helm :=
  { emptyHelm with
    listRun := fun _ => Except.error "Kubernetes cluster unreachable"
    repoTags := fun _ => ([["0.2.0"]], none) }

/-- A runtime whose uninstall action answers with a response and no error. -/
def respondingHelm : Helm :=
  { emptyHelm with
    uninstallRun := fun _ name => (some ("&\x7brelease " ++ name ++ " uninstalled\x7d"), none) }

/-- A healthy cluster whose pod list for the console selector starts with a pod
that is pending and not ready. -/
def pendingFirstPod : Cluster :=
  { healthyCluster devConfig with
    listPods := fun _ _ =>
      Except.ok [{ Name := "console-a", Phase := "Pending", Ready := false },
        { Name := "console-b", Phase := "Running", Ready := true }] }

/-- A healthy cluster in which the forwarder returns an error before readiness. -/
def brokenTunnel : Cluster :=
  { healthyCluster devConfig with
    forwardPorts := TunnelOutcome.returned (some "error upgrading connection") }

/-- A healthy cluster whose standard input is at its end: the read returns no
byte and the error `EOF`. -/
def closedStdin : Cluster :=
  { healthyCluster devConfig with readBytes := ("", some "EOF") }

/-- A runtime whose release store holds the control chart at v0.2.0 and whose
registry lists v0.2.0 and v0.3.0; the chart declares no dependency. -/
def upgradeAvailable : Helm :=
  { emptyHelm with
    listRun := fun name => Except.ok [{ Name := name, AppVersion := "v0.2.0" }]
    repoTags := fun _ => ([["v0.2.0", "v0.3.0"]], none) }

/-- The log of the two version lookups of `Update` for a chart name: the
repository handle, the tag listing and the list query of the release store. -/
def updateLookups (chartName : String) : List HelmEvent :=
  [HelmEvent.newRepository ("ghcr.io/cosmonic/" ++ chartName),
    HelmEvent.repoTags ("ghcr.io/cosmonic/" ++ chartName),
    HelmEvent.listRun chartName]

/-- The upgrade client as `Update` configures it for a version: namespace
`cosmonic-system`, no dry run, pinned to that version. -/
def upgradePinnedTo (version : String) : UpgradeClient :=
  { Namespace := cosmonicNamespace, DryRunOption := "none", Version := version }

/-- The events by which `Run` addresses the operator: what it prints, the read
of standard input, the browser and the final wait. -/
def ConsoleEvent.isUserFacing : ConsoleEvent → Bool
  | ConsoleEvent.printf _ => true
  | ConsoleEvent.readStdin => true
  | ConsoleEvent.openURL _ => true
  | ConsoleEvent.park => true
  | _ => false

/-- The prompt `Run` prints once the tunnel is ready, for a local port. -/
def promptLine (localPort : Nat) : String :=
  "Press enter to connect to the console at http://localhost:" ++ toString localPort ++
    "\nCtrl+C when finished\n"

/-! ## Effectful code: unfolding lemmas -/

theorem Act.bind_apply {ε α β : Type} (m : Act ε α) (f : α → Act ε β) (log : List ε) :
    (m >>= f) log = Act.andThen m f log := rfl

theorem Act.pure_apply {ε α : Type} (a : α) (log : List ε) :
    (pure a : Act ε α) log = (Except.ok a, log) := rfl

theorem Act.run_def {ε α : Type} (m : Act ε α) : m.run = m [] := rfl

theorem Act.call_apply {ε α : Type} (ev : ε) (answer : α) (log : List ε) :
    Act.call ev answer log = (Except.ok answer, log ++ [ev]) := rfl

theorem Act.fail_apply {ε α : Type} (e : Error) (log : List ε) :
    (Act.fail e : Act ε α) log = (Except.error e, log) := rfl

theorem Act.bind_ok {ε α β : Type} {m : Act ε α} {f : α → Act ε β} {log log1 : List ε} {a : α}
    (h : m log = (Except.ok a, log1)) : (m >>= f) log = f a log1 := by
  rw [Act.bind_apply, Act.andThen, h]

theorem Act.bind_error {ε α β : Type} {m : Act ε α} {f : α → Act ε β} {log log1 : List ε}
    {e : Error} (h : m log = (Except.error e, log1)) :
    (m >>= f) log = (Except.error e, log1) := by
  rw [Act.bind_apply, Act.andThen, h]

/-! ## Local port picker -/

theorem findLocalPortLoop_cons (w : Cluster) (p : Nat) (rest : List Nat) (log : List ConsoleEvent) :
    findLocalPortLoop w (p :: rest) log =
      match w.listen p with
      | none => (Except.ok p, log ++ [ConsoleEvent.listen p] ++ [ConsoleEvent.close p])
      | some _ => findLocalPortLoop w rest (log ++ [ConsoleEvent.listen p]) := by
  cases h : w.listen p <;>
    simp [findLocalPortLoop, Act.bind_apply, Act.andThen, Act.call, Act.pure_apply, h]

theorem findLocalPortLoop_ok_iff (w : Cluster) (n : Nat) :
    ∀ (s : Nat) (log : List ConsoleEvent) (p : Nat),
      (findLocalPortLoop w (List.range' s n) log).1 = Except.ok p ↔
        (s ≤ p ∧ p < s + n ∧ w.listen p = none ∧ ∀ q, s ≤ q → q < p → w.listen q ≠ none) := by
  induction n with
  | zero =>
    intro s log p
    simp [findLocalPortLoop, Act.fail]
    omega
  | succ n ih =>
    intro s log p
    rw [List.range'_succ, findLocalPortLoop_cons]
    cases h : w.listen s with
    | none =>
      simp only []
      constructor
      · intro hp
        have hps : s = p := by simpa using hp
        subst hps
        exact ⟨le_refl _, by omega, h, fun q h1 h2 => absurd h1 (by omega)⟩
      · rintro ⟨h1, _, _, h4⟩
        rcases Nat.eq_or_lt_of_le h1 with heq | hlt
        · simp [heq]
        · exact absurd h (h4 s (le_refl _) hlt)
    | some e =>
      simp only []
      rw [ih]
      constructor
      · rintro ⟨h1, h2, h3, h4⟩
        refine ⟨by omega, by omega, h3, fun q hq1 hq2 => ?_⟩
        rcases Nat.eq_or_lt_of_le hq1 with heq | hlt
        · subst heq; simp [h]
        · exact h4 q hlt hq2
      · rintro ⟨h1, h2, h3, h4⟩
        have hne : s ≠ p := by
          intro heq
          subst heq
          simp [h] at h3
        exact ⟨by omega, by omega, h3, fun q hq1 hq2 => h4 q (by omega) hq2⟩

theorem findLocalPortLoop_error_iff (w : Cluster) (n : Nat) :
    ∀ (s : Nat) (log : List ConsoleEvent) (e : Error),
      (findLocalPortLoop w (List.range' s n) log).1 = Except.error e ↔
        (e = "local port for port-forwarding not found" ∧
          ∀ q, s ≤ q → q < s + n → w.listen q ≠ none) := by
  induction n with
  | zero =>
    intro s log e
    simp [findLocalPortLoop, Act.fail]
    constructor
    · intro h; exact ⟨h.symm, fun q h1 h2 => absurd h1 (by omega)⟩
    · intro h; exact h.1.symm
  | succ n ih =>
    intro s log e
    rw [List.range'_succ, findLocalPortLoop_cons]
    cases h : w.listen s with
    | none =>
      simp only []
      constructor
      · intro hp; simp at hp
      · rintro ⟨_, h2⟩
        exact absurd h (h2 s (le_refl _) (by omega))
    | some e1 =>
      simp only []
      rw [ih]
      constructor
      · rintro ⟨h1, h2⟩
        refine ⟨h1, fun q hq1 hq2 => ?_⟩
        rcases Nat.eq_or_lt_of_le hq1 with heq | hlt
        · subst heq; simp [h]
        · exact h2 q hlt (by omega)
      · rintro ⟨h1, h2⟩
        exact ⟨h1, fun q hq1 hq2 => h2 q (by omega) (by omega)⟩

/-- C1: for every answer of the bind attempts, findLocalPort returns port p
exactly when p is the smallest port in 8080..8280 whose bind succeeds, and it fails,
with the error 'local port for port-forwarding not found', exactly when no port
in 8080..8280 accepts a bind; it returns no other error. -/
theorem findLocalPort_smallest_free (w : Cluster) :
    (∀ p : Nat, (ConsoleConfig.findLocalPort w).run.1 = Except.ok p ↔
      (8080 ≤ p ∧ p ≤ 8280 ∧ w.listen p = none ∧
        ∀ q, 8080 ≤ q → q < p → w.listen q ≠ none)) ∧
    ((ConsoleConfig.findLocalPort w).run.1 = Except.error "local port for port-forwarding not found" ↔
      ∀ q, 8080 ≤ q → q ≤ 8280 → w.listen q ≠ none) ∧
    (∀ e : Error, (ConsoleConfig.findLocalPort w).run.1 = Except.error e →
      e = "local port for port-forwarding not found") := by
  refine ⟨fun p => ?_, ?_, fun e he => ?_⟩
  · unfold ConsoleConfig.findLocalPort Act.run portRange
    rw [findLocalPortLoop_ok_iff]
    simp only [startPort, endPort]
    constructor
    · rintro ⟨h1, h2, h3, h4⟩; exact ⟨h1, by omega, h3, h4⟩
    · rintro ⟨h1, h2, h3, h4⟩; exact ⟨h1, by omega, h3, h4⟩
  · unfold ConsoleConfig.findLocalPort Act.run portRange
    rw [findLocalPortLoop_error_iff]
    simp only [startPort, endPort]
    constructor
    · rintro ⟨_, h2⟩ q hq1 hq2; exact h2 q hq1 (by omega)
    · intro h; exact ⟨trivial, fun q hq1 hq2 => h q hq1 (by omega)⟩
  · unfold ConsoleConfig.findLocalPort Act.run portRange at he
    rw [findLocalPortLoop_error_iff] at he
    exact he.1

/-- Scenario 5 for C1: with 8080..8090 bound and 8091 free the port found is 8091. -/
theorem findLocalPort_smallest_free_witness :
    (ConsoleConfig.findLocalPort contendedCluster).run.1 = Except.ok 8091 :=
  ((findLocalPort_smallest_free contendedCluster).1 8091).2
    ⟨by decide, by decide, by decide, fun q h1 h2 => by
      have h3 : q ≤ 8090 := by omega
      simp [contendedCluster, h3]⟩

/-! ## Chart manager -/

theorem GetInstalledChartVersion_apply (h : Helm) (chartName : String) (log : List HelmEvent) :
    ChartManager.GetInstalledChartVersion h chartName log =
      ((match h.listRun chartName with
        | Except.error err => Except.error ("failed to run list action: " ++ err)
        | Except.ok (rel :: _) => Except.ok rel.AppVersion
        | Except.ok [] => Except.error "chart not found"),
       log ++ [HelmEvent.listRun chartName]) := by
  unfold ChartManager.GetInstalledChartVersion
  rcases hl : h.listRun chartName with err | rels
  · simp [Act.bind_apply, Act.andThen, Act.call, Act.fail, hl]
  · cases rels <;> simp [Act.bind_apply, Act.andThen, Act.call, Act.fail, Act.pure_apply, hl]

theorem GetRepoChartVersion_apply (h : Helm) (chartName : String) (log : List HelmEvent) :
    ChartManager.GetRepoChartVersion h chartName log =
      ((ChartManager.GetRepoChartVersion h chartName).run.1,
        log ++ (ChartManager.GetRepoChartVersion h chartName).run.2) := by
  unfold ChartManager.GetRepoChartVersion Act.run
  cases h1 : h.newRepository ("ghcr.io/cosmonic/" ++ chartName) with
  | some err => simp [Act.bind_apply, Act.andThen, Act.call, Act.fail, h1]
  | none =>
    cases h2 : (h.repoTags ("ghcr.io/cosmonic/" ++ chartName)).2 with
    | some err => simp [Act.bind_apply, Act.andThen, Act.call, Act.fail, h1, h2]
    | none =>
      by_cases h3 : tagRetriever [] (h.repoTags ("ghcr.io/cosmonic/" ++ chartName)).1 = []
      · simp [Act.bind_apply, Act.andThen, Act.call, Act.fail, h1, h2, h3]
      · simp [Act.bind_apply, Act.andThen, Act.call, Act.fail, Act.pure_apply, h1, h2, h3]

theorem sortStrings_last_is_greatest (l : List String) (hne : l ≠ []) :
    (sortStrings l).getD ((sortStrings l).length - 1) "" ∈ l ∧
    ∀ t ∈ l, t ≤ (sortStrings l).getD ((sortStrings l).length - 1) "" := by
  have hperm : (sortStrings l).Perm l := List.perm_insertionSort _ l
  have hsorted : (sortStrings l).Sorted (fun a b => a ≤ b) := List.sorted_insertionSort _ l
  have hs : sortStrings l ≠ [] := fun h0 => hne (by simpa [h0] using hperm.symm)
  have hlast : (sortStrings l).getD ((sortStrings l).length - 1) "" = (sortStrings l).getLast hs := by
    rw [List.getD_eq_getElem?_getD, ← List.getLast?_eq_getElem?, List.getLast?_eq_getLast _ hs]
    rfl
  rw [hlast]
  obtain ⟨ys, hys⟩ := List.getLast?_eq_some_iff.1 (List.getLast?_eq_getLast _ hs)
  refine ⟨hperm.mem_iff.1 (List.getLast_mem hs), fun t ht => ?_⟩
  have htm : t ∈ sortStrings l := hperm.mem_iff.2 ht
  rw [hys] at hsorted
  rw [hys, List.mem_append] at htm
  rcases htm with hin | hin
  · exact (List.pairwise_append.1 hsorted).2.2 t hin _ (List.mem_singleton_self _)
  · rw [List.mem_singleton.1 hin]

theorem tagRetriever_append_last (batches : List (List String)) (last : List String) :
    tagRetriever [] (batches ++ [last]) = last := by
  simp [tagRetriever, List.foldl_append]

/-- What the method does return: the greatest tag of the last batch handed to
the callback, when that batch is not empty. -/
theorem GetRepoChartVersion_greatest_of_last_batch (h : Helm) (chartName : String)
    (batches : List (List String)) (last : List String)
    (hrepo : h.newRepository ("ghcr.io/cosmonic/" ++ chartName) = none)
    (htags : h.repoTags ("ghcr.io/cosmonic/" ++ chartName) = (batches ++ [last], none))
    (hne : last ≠ []) :
    ∃ m, (ChartManager.GetRepoChartVersion h chartName).run.1 = Except.ok m ∧
      m ∈ last ∧ ∀ t ∈ last, t ≤ m := by
  refine ⟨(sortStrings last).getD ((sortStrings last).length - 1) "", ?_,
    sortStrings_last_is_greatest last hne⟩
  simp [ChartManager.GetRepoChartVersion, Act.run, Act.bind_apply, Act.andThen, Act.call,
    Act.fail, Act.pure_apply, hrepo, htags, tagRetriever_append_last, hne]

/-- C2 (defect): with the tags enumerated in two batches, v0.2.0 then v0.1.0,
GetRepoChartVersion returns v0.1.0, a tag of the last batch, although the
greater tag v0.2.0 was enumerated; and when the enumeration ends with an empty
batch after v0.1.0 it reports 'repository tag not found'. -/
theorem GetRepoChartVersion_keeps_last_batch_only :
    (ChartManager.GetRepoChartVersion pagedRegistry "cosmonic-control").run.1 = Except.ok "v0.1.0" ∧
    "v0.2.0" ∈ (pagedRegistry.repoTags "ghcr.io/cosmonic/cosmonic-control").1.flatten ∧
    ("v0.1.0" : String) < "v0.2.0" ∧
    (ChartManager.GetRepoChartVersion trailingEmptyBatch "cosmonic-control").run.1 =
      Except.error "repository tag not found" ∧
    "v0.1.0" ∈ (trailingEmptyBatch.repoTags "ghcr.io/cosmonic/cosmonic-control").1.flatten := by
  refine ⟨?_, ?_, ?_, ?_, ?_⟩
  · simp [ChartManager.GetRepoChartVersion, Act.run, Act.bind_apply, Act.andThen, Act.call,
      Act.fail, Act.pure_apply, pagedRegistry, emptyHelm, tagRetriever, sortStrings]
  · simp [pagedRegistry, emptyHelm]
  · rw [String.lt_iff_toList_lt]; decide
  · simp [ChartManager.GetRepoChartVersion, Act.run, Act.bind_apply, Act.andThen, Act.call,
      Act.fail, trailingEmptyBatch, emptyHelm, tagRetriever]
  · simp [trailingEmptyBatch, emptyHelm]

theorem GetRepoChartVersion_events_of_ok (h : Helm) (chartName r : String)
    (hr : (ChartManager.GetRepoChartVersion h chartName).run.1 = Except.ok r) :
    (ChartManager.GetRepoChartVersion h chartName).run.2 =
      [HelmEvent.newRepository ("ghcr.io/cosmonic/" ++ chartName),
        HelmEvent.repoTags ("ghcr.io/cosmonic/" ++ chartName)] := by
  revert hr
  unfold ChartManager.GetRepoChartVersion Act.run
  cases h1 : h.newRepository ("ghcr.io/cosmonic/" ++ chartName) with
  | some err => simp [Act.bind_apply, Act.andThen, Act.call, Act.fail, h1]
  | none =>
    cases h2 : (h.repoTags ("ghcr.io/cosmonic/" ++ chartName)).2 with
    | some err => simp [Act.bind_apply, Act.andThen, Act.call, Act.fail, h1, h2]
    | none =>
      by_cases h3 : tagRetriever [] (h.repoTags ("ghcr.io/cosmonic/" ++ chartName)).1 = []
      · simp [Act.bind_apply, Act.andThen, Act.call, Act.fail, h1, h2, h3]
      · simp [Act.bind_apply, Act.andThen, Act.call, Act.fail, Act.pure_apply, h1, h2, h3]

theorem newRegistryClient_apply (h : Helm) (log : List HelmEvent) :
    newRegistryClient h log =
      ((match h.newRegistryClient with
        | some err => Except.error err
        | none => Except.ok ()), log ++ [HelmEvent.newRegistryClient]) := by
  unfold newRegistryClient
  cases hc : h.newRegistryClient <;>
    simp [Act.bind_apply, Act.andThen, Act.call, Act.fail, Act.pure_apply, hc]

theorem CheckDependencies_apply (h : Helm) (chart : Chart) (chartPath keyRing : String)
    (log : List HelmEvent) :
    ∃ (res : Except Error Unit) (evs : List HelmEvent),
      ChartManager.CheckDependencies h chart chartPath keyRing log = (res, log ++ evs) ∧
      (∀ c rel ch, HelmEvent.upgradeRun c rel ch ∉ evs) ∧
      (∀ c ch, HelmEvent.installRun c ch ∉ evs) ∧
      (∀ ref v, HelmEvent.locateChart ref v ∉ evs) := by
  unfold ChartManager.CheckDependencies
  cases hd : chart.Dependencies with
  | none => exact ⟨Except.ok (), [], by simp [Act.pure_apply], by simp, by simp, by simp⟩
  | some deps =>
    cases h1 : h.actionCheckDependencies chart deps with
    | none =>
      exact ⟨Except.ok (), [HelmEvent.actionCheckDependencies chart],
        by simp [Act.bind_apply, Act.andThen, Act.call, Act.pure_apply, h1], by simp, by simp,
        by simp⟩
    | some e1 =>
      cases h2 : h.downloaderUpdate chartPath with
      | some e2 =>
        exact ⟨Except.error e2, [HelmEvent.actionCheckDependencies chart,
            HelmEvent.downloaderUpdate chartPath keyRing],
          by simp [Act.bind_apply, Act.andThen, Act.call, Act.fail, h1, h2], by simp, by simp,
          by simp⟩
      | none =>
        rcases h3 : h.loadChart chartPath with e3 | reloaded
        · exact ⟨Except.error ("failed to reload chart after dependency update, error " ++ e3),
            [HelmEvent.actionCheckDependencies chart,
              HelmEvent.downloaderUpdate chartPath keyRing, HelmEvent.loadChart chartPath],
            by simp [Act.bind_apply, Act.andThen, Act.call, Act.fail, h1, h2, h3], by simp,
            by simp, by simp⟩
        · exact ⟨Except.ok (),
            [HelmEvent.actionCheckDependencies chart,
              HelmEvent.downloaderUpdate chartPath keyRing, HelmEvent.loadChart chartPath],
            by simp [Act.bind_apply, Act.andThen, Act.call, Act.pure_apply, h1, h2, h3], by simp,
            by simp, by simp⟩

/-- The two branches of `Update` after its lookups, by their logs: the error
branch stops at the lookups; the other branch goes on with the registry client
and the location of the chart at version r, and any upgrade action in its log is
the one pinned to r for the release. -/
theorem Update_branches_by_log (h : Helm) (chartName i r : String)
    (hr : (ChartManager.GetRepoChartVersion h chartName).run.1 = Except.ok r)
    (hi : (ChartManager.GetInstalledChartVersion h chartName).run.1 = Except.ok i) :
    ((ChartManager.Update h chartName).run =
        (Except.error ("chart is already at the latest version " ++ r),
          [HelmEvent.newRepository ("ghcr.io/cosmonic/" ++ chartName),
            HelmEvent.repoTags ("ghcr.io/cosmonic/" ++ chartName),
            HelmEvent.listRun chartName]) ↔ (i = r ∨ i > r)) ∧
    (¬ (i = r ∨ i > r) →
      ∃ rest : List HelmEvent,
        (ChartManager.Update h chartName).run.2 =
          [HelmEvent.newRepository ("ghcr.io/cosmonic/" ++ chartName),
            HelmEvent.repoTags ("ghcr.io/cosmonic/" ++ chartName),
            HelmEvent.listRun chartName] ++ HelmEvent.newRegistryClient :: rest ∧
        (h.newRegistryClient = none →
          ∃ rest1, rest =
            HelmEvent.locateChart (ChartManager.chartRegistryName chartName) r :: rest1) ∧
        ∀ c rel ch, HelmEvent.upgradeRun c rel ch ∈ rest →
          c = { Namespace := cosmonicNamespace, DryRunOption := "none", Version := r } ∧
            rel = chartName) := by
  have hev := GetRepoChartVersion_events_of_ok h chartName r hr
  have hi2 : (ChartManager.GetInstalledChartVersion h chartName
      [HelmEvent.newRepository ("ghcr.io/cosmonic/" ++ chartName),
        HelmEvent.repoTags ("ghcr.io/cosmonic/" ++ chartName)]) =
      (Except.ok i, [HelmEvent.newRepository ("ghcr.io/cosmonic/" ++ chartName),
        HelmEvent.repoTags ("ghcr.io/cosmonic/" ++ chartName), HelmEvent.listRun chartName]) := by
    have := GetInstalledChartVersion_apply h chartName []
    rw [Act.run_def, this] at hi
    rw [GetInstalledChartVersion_apply]
    simp only [] at hi
    simp [hi]
  have hr2 : ChartManager.GetRepoChartVersion h chartName [] =
      (Except.ok r, [HelmEvent.newRepository ("ghcr.io/cosmonic/" ++ chartName),
        HelmEvent.repoTags ("ghcr.io/cosmonic/" ++ chartName)]) := by
    rw [Act.run_def] at hr hev
    exact Prod.ext hr hev
  have hcond : (r = i ∨ i > r) ↔ (i = r ∨ i > r) := by
    constructor <;> (rintro (h1 | h1); exact Or.inl h1.symm; exact Or.inr h1)
  unfold ChartManager.Update
  rw [Act.run_def, Act.bind_ok hr2, Act.bind_ok hi2]
  by_cases hc : r = i ∨ i > r
  · refine ⟨?_, fun hn => absurd (hcond.1 hc) hn⟩
    simp only [hc, if_true, Act.fail_apply, true_iff]
    exact hcond.1 hc
  · simp only [hc, if_false]
    have hc2 : ¬ (i = r ∨ i > r) := fun hh => hc (hcond.2 hh)
    rw [Act.bind_apply, Act.andThen, newRegistryClient_apply]
    cases hreg : h.newRegistryClient with
    | some e1 =>
      simp only []
      refine ⟨⟨fun heq => ?_, fun hh => absurd hh hc2⟩, fun _ => ⟨[], by simp, ?_, by simp⟩⟩
      · simp at heq
      · intro hn; simp at hn
    | none =>
      simp only []
      rw [Act.bind_apply, Act.andThen, Act.call_apply]
      simp only []
      rcases hloc : h.locateChart (ChartManager.chartRegistryName chartName) r with e2 | chartPath
      · simp only [Act.fail_apply]
        refine ⟨⟨fun heq => ?_, fun hh => absurd hh hc2⟩, fun _ =>
          ⟨[HelmEvent.locateChart (ChartManager.chartRegistryName chartName) r], by simp,
            fun _ => ⟨[], rfl⟩, by simp⟩⟩
        simp at heq
      · simp only []
        rw [Act.bind_apply, Act.andThen, Act.call_apply]
        simp only []
        rcases hload : h.loadChart chartPath with e3 | chart
        · simp only [Act.fail_apply]
          refine ⟨⟨fun heq => ?_, fun hh => absurd hh hc2⟩, fun _ =>
            ⟨[HelmEvent.locateChart (ChartManager.chartRegistryName chartName) r,
                HelmEvent.loadChart chartPath], by simp, fun _ => ⟨_, rfl⟩, by simp⟩⟩
          simp at heq
        · simp only []
          obtain ⟨res, evs, hcd, hno, -, -⟩ := CheckDependencies_apply h chart chartPath ""
            ([HelmEvent.newRepository ("ghcr.io/cosmonic/" ++ chartName),
              HelmEvent.repoTags ("ghcr.io/cosmonic/" ++ chartName),
              HelmEvent.listRun chartName] ++ [HelmEvent.newRegistryClient] ++
              [HelmEvent.locateChart (ChartManager.chartRegistryName chartName) r] ++
              [HelmEvent.loadChart chartPath])
          rw [Act.bind_apply, Act.andThen, hcd]
          cases res with
          | error e4 =>
            simp only []
            refine ⟨⟨fun heq => ?_, fun hh => absurd hh hc2⟩, fun _ =>
              ⟨[HelmEvent.locateChart (ChartManager.chartRegistryName chartName) r,
                  HelmEvent.loadChart chartPath] ++ evs, by simp, fun _ => ⟨_, rfl⟩, ?_⟩⟩
            · simp at heq
            · intro c rel ch hmem
              simp at hmem
              exact absurd hmem (hno c rel ch)
          | ok u =>
            simp only []
            rw [Act.bind_apply, Act.andThen, Act.call_apply]
            simp only []
            cases hup : h.upgradeRun
                { Namespace := cosmonicNamespace, DryRunOption := "none", Version := r }
                chartName chart <;> simp only [Act.fail_apply, Act.pure_apply] <;>
              (refine ⟨⟨fun heq => ?_, fun hh => absurd hh hc2⟩, fun _ =>
                ⟨[HelmEvent.locateChart (ChartManager.chartRegistryName chartName) r,
                    HelmEvent.loadChart chartPath] ++ evs ++
                  [HelmEvent.upgradeRun
                    { Namespace := cosmonicNamespace, DryRunOption := "none", Version := r }
                    chartName chart], by simp, fun _ => ⟨_, rfl⟩, ?_⟩⟩
               · simp at heq
               · intro c rel ch hmem
                 simp at hmem
                 rcases hmem with hmem | hmem
                 · exact absurd hmem (hno c rel ch)
                 · exact ⟨hmem.1, hmem.2.1⟩)

theorem CheckDependencies_log (h : Helm) (chart : Chart) (chartPath keyRing : String)
    (log : List HelmEvent) :
    ChartManager.CheckDependencies h chart chartPath keyRing log =
      ((ChartManager.CheckDependencies h chart chartPath keyRing).run.1,
        log ++ (ChartManager.CheckDependencies h chart chartPath keyRing).run.2) := by
  unfold ChartManager.CheckDependencies Act.run
  cases hd : chart.Dependencies with
  | none => simp [Act.pure_apply]
  | some deps =>
    cases h1 : h.actionCheckDependencies chart deps with
    | none => simp [Act.bind_apply, Act.andThen, Act.call_apply, Act.pure_apply, h1]
    | some e1 =>
      cases h2 : h.downloaderUpdate chartPath with
      | some e2 =>
        simp [Act.bind_apply, Act.andThen, Act.call_apply, Act.fail_apply, h1, h2]
      | none =>
        rcases h3 : h.loadChart chartPath with e3 | reloaded
        · simp [Act.bind_apply, Act.andThen, Act.call_apply, Act.fail_apply, h1, h2, h3]
        · simp [Act.bind_apply, Act.andThen, Act.call_apply, Act.pure_apply, h1, h2, h3]

/-- C3: when the two lookups of Update return repository version r and installed
version i, Update returns the error 'chart is already at the latest version '
followed by r, having made no call beyond the two lookups, exactly when i equals r
or i is greater than r in the order on strings.  Otherwise it proceeds to the
upgrade pinned to r: it creates the registry client, locates the chart of the
registry at version r, loads it, checks its dependencies and runs the upgrade
action for the release with version r, in cosmonic-system and without dry run;
the answer of the upgrade action is the result of Update, and the error of a step
that fails on the way is returned unchanged by Update, which stops there. -/
theorem Update_already_latest_iff (h : Helm) (chartName i r : String)
    (hr : (ChartManager.GetRepoChartVersion h chartName).run.1 = Except.ok r)
    (hi : (ChartManager.GetInstalledChartVersion h chartName).run.1 = Except.ok i) :
    ((ChartManager.Update h chartName).run =
        (Except.error ("chart is already at the latest version " ++ r), updateLookups chartName) ↔
      (i = r ∨ i > r)) ∧
    (¬ (i = r ∨ i > r) →
      (ChartManager.Update h chartName).run =
        match h.newRegistryClient with
        | some err =>
          (Except.error err, updateLookups chartName ++ [HelmEvent.newRegistryClient])
        | none =>
          match h.locateChart (ChartManager.chartRegistryName chartName) r with
          | Except.error err =>
            (Except.error err, updateLookups chartName ++ [HelmEvent.newRegistryClient,
              HelmEvent.locateChart (ChartManager.chartRegistryName chartName) r])
          | Except.ok chartPath =>
            match h.loadChart chartPath with
            | Except.error err =>
              (Except.error err, updateLookups chartName ++ [HelmEvent.newRegistryClient,
                HelmEvent.locateChart (ChartManager.chartRegistryName chartName) r,
                HelmEvent.loadChart chartPath])
            | Except.ok chart =>
              match (ChartManager.CheckDependencies h chart chartPath "").run with
              | (Except.error err, deps) =>
                (Except.error err, updateLookups chartName ++ [HelmEvent.newRegistryClient,
                  HelmEvent.locateChart (ChartManager.chartRegistryName chartName) r,
                  HelmEvent.loadChart chartPath] ++ deps)
              | (Except.ok _, deps) =>
                ((match h.upgradeRun (upgradePinnedTo r) chartName chart with
                  | some err => Except.error err
                  | none => Except.ok ()),
                 updateLookups chartName ++ [HelmEvent.newRegistryClient,
                  HelmEvent.locateChart (ChartManager.chartRegistryName chartName) r,
                  HelmEvent.loadChart chartPath] ++ deps ++
                  [HelmEvent.upgradeRun (upgradePinnedTo r) chartName chart])) := by
  have hev := GetRepoChartVersion_events_of_ok h chartName r hr
  have hi2 : (ChartManager.GetInstalledChartVersion h chartName
      [HelmEvent.newRepository ("ghcr.io/cosmonic/" ++ chartName),
        HelmEvent.repoTags ("ghcr.io/cosmonic/" ++ chartName)]) =
      (Except.ok i, updateLookups chartName) := by
    have := GetInstalledChartVersion_apply h chartName []
    rw [Act.run_def, this] at hi
    rw [GetInstalledChartVersion_apply]
    simp only [] at hi
    simp [hi, updateLookups]
  have hr2 : ChartManager.GetRepoChartVersion h chartName [] =
      (Except.ok r, [HelmEvent.newRepository ("ghcr.io/cosmonic/" ++ chartName),
        HelmEvent.repoTags ("ghcr.io/cosmonic/" ++ chartName)]) := by
    rw [Act.run_def] at hr hev
    exact Prod.ext hr hev
  have hcond : (r = i ∨ i > r) ↔ (i = r ∨ i > r) := by
    constructor <;> (rintro (h1 | h1); exact Or.inl h1.symm; exact Or.inr h1)
  unfold ChartManager.Update
  rw [Act.run_def, Act.bind_ok hr2, Act.bind_ok hi2]
  by_cases hc : r = i ∨ i > r
  · refine ⟨?_, fun hn => absurd (hcond.1 hc) hn⟩
    simp only [hc, if_true, Act.fail_apply, true_iff]
    exact hcond.1 hc
  · have hc2 : ¬ (i = r ∨ i > r) := fun hh => hc (hcond.2 hh)
    have hpin : upgradePinnedTo r =
        { Namespace := cosmonicNamespace, DryRunOption := "none", Version := r } := rfl
    simp only [hc, if_false]
    rw [Act.bind_apply, Act.andThen, newRegistryClient_apply]
    cases hreg : h.newRegistryClient with
    | some e1 =>
      simp only []
      refine ⟨⟨fun heq => absurd heq ?_, fun hh => absurd hh hc2⟩, fun _ => trivial⟩
      simp
    | none =>
      simp only []
      rw [Act.bind_apply, Act.andThen, Act.call_apply]
      simp only []
      rcases hloc : h.locateChart (ChartManager.chartRegistryName chartName) r with e2 | chartPath
      · simp only [Act.fail_apply]
        refine ⟨⟨fun heq => absurd heq ?_, fun hh => absurd hh hc2⟩, fun _ => by simp⟩
        simp
      · simp only []
        rw [Act.bind_apply, Act.andThen, Act.call_apply]
        simp only []
        rcases hload : h.loadChart chartPath with e3 | chart
        · simp only [Act.fail_apply]
          refine ⟨⟨fun heq => absurd heq ?_, fun hh => absurd hh hc2⟩, fun _ => by simp⟩
          simp
        · simp only []
          rw [Act.bind_apply, Act.andThen, CheckDependencies_log]
          rcases hcd : (ChartManager.CheckDependencies h chart chartPath "").run with ⟨res, deps⟩
          cases res with
          | error e4 =>
            simp only []
            refine ⟨⟨fun heq => absurd heq ?_, fun hh => absurd hh hc2⟩, fun _ => by simp⟩
            simp
          | ok u =>
            simp only []
            rw [Act.bind_apply, Act.andThen, Act.call_apply]
            simp only [← hpin]
            cases hup : h.upgradeRun (upgradePinnedTo r) chartName chart with
            | some e5 =>
              simp only [Act.fail_apply]
              refine ⟨⟨fun heq => absurd heq ?_, fun hh => absurd hh hc2⟩, fun _ => by simp⟩
              simp
            | none =>
              simp only [Act.pure_apply]
              refine ⟨⟨fun heq => absurd heq ?_, fun hh => absurd hh hc2⟩, fun _ => by simp⟩
              simp

/-- Scenario 6 for C3: installed v0.3.0 with registry tags v0.2.0 and v0.3.0 gives
'chart is already at the latest version v0.3.0' after the two lookups only; and
installed v0.2.0 with the same tags runs the upgrade action pinned to v0.3.0. -/
theorem Update_already_latest_iff_witness :
    (ChartManager.Update versionComparison "cosmonic-control").run =
      (Except.error "chart is already at the latest version v0.3.0",
        [HelmEvent.newRepository "ghcr.io/cosmonic/cosmonic-control",
          HelmEvent.repoTags "ghcr.io/cosmonic/cosmonic-control",
          HelmEvent.listRun "cosmonic-control"]) ∧
    (ChartManager.Update upgradeAvailable "cosmonic-control").run =
      (Except.ok (),
        [HelmEvent.newRepository "ghcr.io/cosmonic/cosmonic-control",
          HelmEvent.repoTags "ghcr.io/cosmonic/cosmonic-control",
          HelmEvent.listRun "cosmonic-control",
          HelmEvent.newRegistryClient,
          HelmEvent.locateChart "oci://ghcr.io/cosmonic/cosmonic-control" "v0.3.0",
          HelmEvent.loadChart "/cache/oci://ghcr.io/cosmonic/cosmonic-control-v0.3.0.tgz",
          HelmEvent.upgradeRun
            { Namespace := "cosmonic-system", DryRunOption := "none", Version := "v0.3.0" }
            "cosmonic-control"
            { Name := "/cache/oci://ghcr.io/cosmonic/cosmonic-control-v0.3.0.tgz",
              Dependencies := none }]) := by
  have hr : (ChartManager.GetRepoChartVersion versionComparison "cosmonic-control").run.1 =
      Except.ok "v0.3.0" := by
    simp [ChartManager.GetRepoChartVersion, Act.run, Act.bind_apply, Act.andThen, Act.call,
      Act.fail, Act.pure_apply, versionComparison, emptyHelm, tagRetriever, sortStrings,
      String.le_iff_toList_le]
    decide
  have hi : (ChartManager.GetInstalledChartVersion versionComparison "cosmonic-control").run.1 =
      Except.ok "v0.3.0" := by
    simp [Act.run_def, GetInstalledChartVersion_apply, versionComparison, emptyHelm]
  have key := (Update_already_latest_iff versionComparison "cosmonic-control" "v0.3.0" "v0.3.0"
    hr hi).1.2 (Or.inl rfl)
  have hr2 : (ChartManager.GetRepoChartVersion upgradeAvailable "cosmonic-control").run.1 =
      Except.ok "v0.3.0" := by
    simp [ChartManager.GetRepoChartVersion, Act.run, Act.bind_apply, Act.andThen, Act.call,
      Act.fail, Act.pure_apply, upgradeAvailable, emptyHelm, tagRetriever, sortStrings,
      String.le_iff_toList_le]
    decide
  have hi2 : (ChartManager.GetInstalledChartVersion upgradeAvailable "cosmonic-control").run.1 =
      Except.ok "v0.2.0" := by
    simp [Act.run_def, GetInstalledChartVersion_apply, upgradeAvailable, emptyHelm]
  have hnewer : ¬ (("v0.2.0" : String) = "v0.3.0" ∨ ("v0.2.0" : String) > "v0.3.0") := by
    simp [String.lt_iff_toList_lt]
    decide
  have key2 := (Update_already_latest_iff upgradeAvailable "cosmonic-control" "v0.2.0" "v0.3.0"
    hr2 hi2).2 hnewer
  constructor
  · simpa [updateLookups] using key
  · rw [key2]
    simp [upgradeAvailable, emptyHelm, updateLookups, upgradePinnedTo,
      ChartManager.chartRegistryName, cosmonicChartRegistry, cosmonicNamespace,
      ChartManager.CheckDependencies, Act.run, Act.pure_apply]

/-- C4: when GetInstalledChartVersion returns a non-empty version for the chart
name, Install returns the error 'chart is already installed' and its only
external call is the list query of that lookup: no registry lookup, chart
location, chart load or install action is made. -/
theorem Install_already_installed (h : Helm) (chartName ver : String)
    (hver : (ChartManager.GetInstalledChartVersion h chartName).run.1 = Except.ok ver)
    (hne : ver ≠ "") :
    (ChartManager.Install h chartName).run =
      (Except.error "chart is already installed", [HelmEvent.listRun chartName]) := by
  rw [Act.run_def, GetInstalledChartVersion_apply] at hver
  simp only [] at hver
  unfold ChartManager.Install
  have hatt : Act.attempt (ChartManager.GetInstalledChartVersion h chartName) [] =
      (Except.ok (Except.ok ver), [HelmEvent.listRun chartName]) := by
    simp [Act.attempt, GetInstalledChartVersion_apply, hver]
  rw [Act.run_def, Act.bind_ok hatt]
  simp [hne, Act.fail_apply]

/-- Instance of C4: with release v0.3.0 in the store, Install stops after the
list query. -/
theorem Install_already_installed_witness :
    (ChartManager.Install versionComparison "cosmonic-control").run =
      (Except.error "chart is already installed", [HelmEvent.listRun "cosmonic-control"]) :=
  Install_already_installed versionComparison "cosmonic-control" "v0.3.0"
    (by simp [Act.run_def, GetInstalledChartVersion_apply, versionComparison, emptyHelm])
    (by decide)

/-! ## Console command -/

theorem String.length_eq_zero_iff_eq_empty (s : String) : s.length = 0 ↔ s = "" := by
  cases s with
  | mk l => simp [String.length, String.ext_iff]

theorem String.length_pos_iff_ne_empty (s : String) : s.length > 0 ↔ s ≠ "" := by
  have key := String.length_eq_zero_iff_eq_empty s
  constructor
  · intro hpos hs
    have := key.2 hs
    omega
  · intro hne
    have : s.length ≠ 0 := fun hl => hne (key.1 hl)
    omega

theorem k8sClient_apply (w : Cluster) (log : List ConsoleEvent) :
    ConsoleConfig.k8sClient w log =
      match w.clientConfig with
      | Except.error err => (Except.error err, log ++ [ConsoleEvent.clientConfig])
      | Except.ok config =>
        match w.newForConfig with
        | some err =>
          (Except.error err, log ++ [ConsoleEvent.clientConfig, ConsoleEvent.newForConfig])
        | none =>
          (Except.ok config, log ++ [ConsoleEvent.clientConfig, ConsoleEvent.newForConfig]) := by
  unfold ConsoleConfig.k8sClient
  rcases h1 : w.clientConfig with err | config
  · simp [Act.bind_apply, Act.andThen, Act.call, Act.fail]
  · cases h2 : w.newForConfig <;>
      simp [Act.bind_apply, Act.andThen, Act.call, Act.fail, Act.pure_apply, h2]

theorem verifyConsoleDeployment_apply (w : Cluster) (log : List ConsoleEvent) :
    ConsoleConfig.verifyConsoleDeployment w log =
      match w.clientConfig with
      | Except.error err => (Except.error err, log ++ [ConsoleEvent.clientConfig])
      | Except.ok _ =>
        match w.newForConfig with
        | some err =>
          (Except.error err, log ++ [ConsoleEvent.clientConfig, ConsoleEvent.newForConfig])
        | none =>
          ((match w.getDeployment cosmonicNamespace consoleDeployment with
            | Except.error err => Except.error err
            | Except.ok deployment => Except.ok (decide (deployment.ReadyReplicas > 0))),
           log ++ [ConsoleEvent.clientConfig, ConsoleEvent.newForConfig,
             ConsoleEvent.getDeployment cosmonicNamespace consoleDeployment]) := by
  unfold ConsoleConfig.verifyConsoleDeployment
  rw [Act.bind_apply, Act.andThen, k8sClient_apply]
  rcases h1 : w.clientConfig with err | config
  · simp
  · cases h2 : w.newForConfig with
    | some err => simp
    | none =>
      rcases h3 : w.getDeployment cosmonicNamespace consoleDeployment with err | dep
      · simp [Act.bind_apply, Act.andThen, Act.call, Act.fail, h3]
      · by_cases h4 : dep.ReadyReplicas > 0 <;>
          simp [Act.bind_apply, Act.andThen, Act.call, Act.pure_apply, h3, h4]

theorem Complete_apply (w : Cluster) (c : ConsoleConfig) (args : List String)
    (log : List ConsoleEvent) :
    ∃ res : Except Error ConsoleConfig,
      ConsoleConfig.Complete w c args log = (res, log ++ [ConsoleEvent.rawConfig]) ∧
      (∀ c1, res = Except.ok c1 → c1.rawConfig = w.rawConfig.1) ∧
      (w.rawConfig.2 = none →
        w.rawConfig.1.Contexts w.rawConfig.1.CurrentContext = none →
        res = Except.error errNoContext) ∧
      (w.rawConfig.2 = none →
        ∀ cur, w.rawConfig.1.Contexts w.rawConfig.1.CurrentContext = some cur →
          ∃ c1, res = Except.ok c1 ∧
            (c.userSpecifiedContext = "" →
              ∃ ctx : Context, c1.resultingContext = some ctx ∧
                c1.resultingContextName = generateContextName ctx ∧
                ctx.Namespace = "" ∧
                ctx.Cluster =
                  (if c.userSpecifiedCluster = "" then cur.Cluster
                   else c.userSpecifiedCluster) ∧
                ctx.AuthInfo =
                  (if c.userSpecifiedAuthInfo = "" then cur.AuthInfo
                   else c.userSpecifiedAuthInfo))) := by
  unfold ConsoleConfig.Complete
  simp only [Act.bind_apply, Act.andThen, Act.call_apply]
  cases h1 : w.rawConfig.2 with
  | some err =>
    refine ⟨Except.error err, by simp [Act.fail_apply], by simp, by simp, by simp⟩
  | none =>
    cases h2 : w.rawConfig.1.Contexts w.rawConfig.1.CurrentContext with
    | none =>
      refine ⟨Except.error errNoContext, by simp [Act.fail_apply, h2], by simp, by simp, by simp⟩
    | some cur =>
      simp only [h2, Act.pure_apply]
      refine ⟨_, rfl, ?_, by simp, ?_⟩
      · intro c1 hc1
        injection hc1 with hc1
        subst hc1
        by_cases ha : c.userSpecifiedContext = "" <;>
          by_cases hb : c.userSpecifiedCluster = "" <;>
          by_cases hd : c.userSpecifiedAuthInfo = "" <;>
          cases he : w.rawConfig.1.Contexts c.userSpecifiedContext <;>
          simp [ha, hb, hd, he, ConsoleConfig.setResulting, String.length_pos_iff_ne_empty,
            String.length_eq_zero_iff_eq_empty]
      · intro _ cur1 hcur1
        injection hcur1 with hcur1
        subst hcur1
        refine ⟨_, rfl, ?_⟩
        intro hctx
        by_cases hb : c.userSpecifiedCluster = "" <;>
          by_cases hd : c.userSpecifiedAuthInfo = "" <;>
          simp [hctx, hb, hd, ConsoleConfig.setResulting, NewContext,
            String.length_pos_iff_ne_empty, String.length_eq_zero_iff_eq_empty]

theorem Validate_apply_empty (w : Cluster) (c : ConsoleConfig) (log : List ConsoleEvent)
    (hcur : c.rawConfig.CurrentContext = "") :
    ConsoleConfig.Validate w c log = (Except.error errNoContext, log) := by
  unfold ConsoleConfig.Validate
  simp [hcur, Act.fail_apply]

theorem Validate_apply_nonempty (w : Cluster) (c : ConsoleConfig) (log : List ConsoleEvent)
    (hcur : c.rawConfig.CurrentContext ≠ "") :
    ConsoleConfig.Validate w c log =
      match ConsoleConfig.verifyConsoleDeployment w log with
      | (Except.ok true, log1) => (Except.ok (), log1)
      | (Except.ok false, log1) =>
        (Except.error "error with retrieving console deployment status", log1)
      | (Except.error err, log1) => (Except.error err, log1) := by
  unfold ConsoleConfig.Validate
  have hlen : ¬ c.rawConfig.CurrentContext.length = 0 := by
    rw [String.length_eq_zero_iff_eq_empty]; exact hcur
  simp only [hlen, if_false, Act.bind_apply, Act.andThen]
  rcases hv : ConsoleConfig.verifyConsoleDeployment w log with ⟨res, log1⟩
  rcases res with err | b
  · rfl
  · cases b <;> rfl

/-- C5: when the loader returns a raw kubeconfig whose current-context name is
the empty string, the console command returns errNoContext, whose message names
'kubectl config use-context', and its only external call is the load of the
kubeconfig: neither the deployment check nor Run is reached, whatever the
contexts map holds under the empty name. -/
theorem console_no_current_context (w : Cluster) (c : ConsoleConfig) (args : List String)
    (hload : w.rawConfig.2 = none) (hcur : w.rawConfig.1.CurrentContext = "") :
    (consoleRunE w c args).run = (Except.error errNoContext, [ConsoleEvent.rawConfig]) ∧
    ∃ before after : String,
      errNoContext = before ++ "kubectl config use-context" ++ after := by
  refine ⟨?_, "no context is currently set, use \"", " <context>\" to select a new one", by decide⟩
  obtain ⟨res, hres, hraw, hnone, hsome⟩ := Complete_apply w c args []
  unfold consoleRunE
  rw [Act.run_def]
  cases hctx : w.rawConfig.1.Contexts w.rawConfig.1.CurrentContext with
  | none =>
    rw [hnone hload hctx] at hres
    rw [Act.bind_error hres]
    rfl
  | some cur =>
    obtain ⟨c1, hc1, -⟩ := hsome hload cur hctx
    rw [hc1] at hres
    rw [Act.bind_ok hres]
    have hc1cur : c1.rawConfig.CurrentContext = "" := by
      rw [hraw c1 hc1, hcur]
    have hval := Validate_apply_empty w c1 ([] ++ [ConsoleEvent.rawConfig]) hc1cur
    rw [Act.bind_error hval]
    rfl

/-- Scenario 1 for C5, with a context entry under the empty name: Complete
succeeds and Validate stops the command. -/
theorem console_no_current_context_witness :
    (consoleRunE (healthyCluster emptyNameConfig) ConsoleConfig.new []).run =
      (Except.error errNoContext, [ConsoleEvent.rawConfig]) :=
  (console_no_current_context (healthyCluster emptyNameConfig) ConsoleConfig.new [] rfl rfl).1

/-- C6 as stated fails: with a kubeconfig whose current-context name is empty
(and which has an entry under the empty name, so that Complete succeeds), the
lookup of the console deployment in cosmonic-system would succeed with one ready
replica, yet validation fails, with errNoContext and without any lookup. -/
theorem Validate_fails_despite_ready_console :
    (∃ d : Deployment,
      (healthyCluster emptyNameConfig).getDeployment "cosmonic-system" "console" = Except.ok d ∧
        1 ≤ d.ReadyReplicas) ∧
    (∃ c1 : ConsoleConfig,
      (ConsoleConfig.Complete (healthyCluster emptyNameConfig) ConsoleConfig.new []).run.1 =
        Except.ok c1 ∧
      (ConsoleConfig.Validate (healthyCluster emptyNameConfig) c1).run =
        (Except.error errNoContext, [])) := by
  refine ⟨⟨_, rfl, by decide⟩, ?_⟩
  obtain ⟨res, hres, hraw, -, hsome⟩ :=
    Complete_apply (healthyCluster emptyNameConfig) ConsoleConfig.new [] []
  obtain ⟨c1, hc1, -⟩ := hsome rfl { Namespace := "", Cluster := "kind", AuthInfo := "admin" } rfl
  refine ⟨c1, ?_, ?_⟩
  · rw [Act.run_def, hres, hc1]
  · rw [Act.run_def]
    exact Validate_apply_empty _ c1 [] (by rw [hraw c1 hc1]; rfl)

/-- C6 (amended): when the current-context name held by the receiver is not
empty, validation succeeds exactly when the client is built, the lookup of the
'console' deployment in 'cosmonic-system' succeeds and its readyReplicas is at
least 1; an error of the client construction or of the lookup is returned
unchanged, and a deployment with no ready replica makes validation fail with
'error with retrieving console deployment status'. -/
theorem Validate_succeeds_iff (w : Cluster) (c : ConsoleConfig)
    (hcur : c.rawConfig.CurrentContext ≠ "") :
    ((ConsoleConfig.Validate w c).run.1 = Except.ok () ↔
      ((∃ config, w.clientConfig = Except.ok config) ∧ w.newForConfig = none ∧
        ∃ d : Deployment, w.getDeployment "cosmonic-system" "console" = Except.ok d ∧
          1 ≤ d.ReadyReplicas)) ∧
    (∀ err, w.clientConfig = Except.error err →
      (ConsoleConfig.Validate w c).run.1 = Except.error err) ∧
    (∀ config err, w.clientConfig = Except.ok config → w.newForConfig = some err →
      (ConsoleConfig.Validate w c).run.1 = Except.error err) ∧
    (∀ config err, w.clientConfig = Except.ok config → w.newForConfig = none →
      w.getDeployment "cosmonic-system" "console" = Except.error err →
      (ConsoleConfig.Validate w c).run.1 = Except.error err) ∧
    (∀ config (d : Deployment), w.clientConfig = Except.ok config → w.newForConfig = none →
      w.getDeployment "cosmonic-system" "console" = Except.ok d → d.ReadyReplicas ≤ 0 →
      (ConsoleConfig.Validate w c).run.1 =
        Except.error "error with retrieving console deployment status") := by
  rw [Act.run_def, Validate_apply_nonempty w c [] hcur, verifyConsoleDeployment_apply]
  have hns : cosmonicNamespace = "cosmonic-system" := rfl
  have hdep : consoleDeployment = "console" := rfl
  rw [hns, hdep]
  rcases h1 : w.clientConfig with err | config
  · simp
  · cases h2 : w.newForConfig with
    | some err => simp
    | none =>
      rcases h3 : w.getDeployment "cosmonic-system" "console" with err | d
      · simp
      · by_cases h4 : d.ReadyReplicas > 0
        · have h5 : 1 ≤ d.ReadyReplicas := by omega
          have h6 : ¬ d.ReadyReplicas ≤ 0 := by omega
          simp [h4, h5, h6]
        · have h5 : ¬ 1 ≤ d.ReadyReplicas := by omega
          have h6 : d.ReadyReplicas ≤ 0 := by omega
          simp [h4, h5, h6]

/-- Scenario 4 for C6: with current context dev and a ready console deployment,
validation succeeds. -/
theorem Validate_succeeds_iff_witness :
    (ConsoleConfig.Validate (healthyCluster devConfig)
      { ConsoleConfig.new with rawConfig := devConfig }).run.1 = Except.ok () :=
  (Validate_succeeds_iff (healthyCluster devConfig)
    { ConsoleConfig.new with rawConfig := devConfig } (by decide)).1.2
    ⟨⟨_, rfl⟩, rfl, _, rfl, by decide⟩

/-! ## The generated context name -/

theorem splitChars_headD (sep : Char) (l : List Char) :
    (splitChars sep l).headD [] = l.takeWhile (fun c => decide (c ≠ sep)) := by
  induction l with
  | nil => simp [splitChars]
  | cons c cs ih =>
    by_cases hc : c = sep
    · simp [splitChars, hc]
    · cases hs : splitChars sep cs with
      | nil =>
        rw [hs] at ih
        simp [splitChars, hc, hs, List.takeWhile_cons] at ih ⊢
        exact ih
      | cons piece pieces =>
        rw [hs] at ih
        simp [splitChars, hc, hs, List.takeWhile_cons] at ih ⊢
        exact ih

theorem stringsSplitSlash_headD (s : String) :
    (stringsSplitSlash s).headD "" = headSegment s := by
  unfold stringsSplitSlash headSegment
  rw [← splitChars_headD]
  cases splitChars '/' s.data <;> rfl

theorem generateContextName_eq (ctx : Context) :
    generateContextName ctx =
      ctx.Namespace ++ (if ctx.Cluster = "" then "" else "/" ++ ctx.Cluster) ++
        (if ctx.AuthInfo = "" then "" else "/" ++ headSegment ctx.AuthInfo) := by
  unfold generateContextName
  rw [stringsSplitSlash_headD]
  by_cases hc : ctx.Cluster = "" <;> by_cases ha : ctx.AuthInfo = "" <;>
    simp [hc, ha, String.length_pos_iff_ne_empty, String.append_assoc]

theorem slashCount_append (a b : String) : slashCount (a ++ b) = slashCount a + slashCount b := by
  simp [slashCount, String.data_append, List.count_append]

theorem slashCount_headSegment (s : String) : slashCount (headSegment s) = 0 := by
  unfold slashCount headSegment
  rw [List.count_eq_zero]
  intro hmem
  have := List.mem_takeWhile_imp hmem
  simp at this

/-- The name always starts with the namespace, and its separators are those of
the namespace, one plus those of the cluster when the cluster is not empty, and
one when the auth-info is not empty. -/
theorem generateContextName_slashCount (ctx : Context) :
    (∃ rest, generateContextName ctx = ctx.Namespace ++ rest) ∧
    slashCount (generateContextName ctx) =
      slashCount ctx.Namespace + (if ctx.Cluster = "" then 0 else 1 + slashCount ctx.Cluster) +
        (if ctx.AuthInfo = "" then 0 else 1) := by
  rw [generateContextName_eq]
  refine ⟨⟨_, String.append_assoc _ _ _⟩, ?_⟩
  have hslash : slashCount "/" = 1 := by decide
  have hempty : slashCount "" = 0 := by decide
  by_cases hc : ctx.Cluster = "" <;> by_cases ha : ctx.AuthInfo = "" <;>
    simp [hc, ha, slashCount_append, slashCount_headSegment, hslash, hempty]

/-- C7 as stated fails: a context without a cluster gives a name with one
separator, and a cluster identifier that itself contains a '/' gives three. -/
theorem generateContextName_not_two_separators :
    generateContextName { Namespace := "ns", Cluster := "", AuthInfo := "user" } = "ns/user" ∧
    slashCount (generateContextName { Namespace := "ns", Cluster := "", AuthInfo := "user" }) ≠ 2 ∧
    slashCount (generateContextName
      { Namespace := "", Cluster := "arn:aws:eks:us-east-1:1234:cluster/prod",
        AuthInfo := "admin" }) = 3 := by
  refine ⟨?_, ?_, ?_⟩
  · rw [generateContextName_eq]; decide
  · rw [(generateContextName_slashCount _).2]; decide
  · rw [(generateContextName_slashCount _).2]; decide

/-- C7 (amended): for a context whose cluster and auth-info are not empty and
whose namespace and cluster contain no '/', the name produced by
generateContextName contains exactly two '/' separators and begins with
the namespace segment. -/
theorem generateContextName_two_separators (ctx : Context)
    (hc : ctx.Cluster ≠ "") (ha : ctx.AuthInfo ≠ "")
    (hns : slashCount ctx.Namespace = 0) (hcl : slashCount ctx.Cluster = 0) :
    slashCount (generateContextName ctx) = 2 ∧
    ∃ rest, generateContextName ctx = ctx.Namespace ++ rest := by
  obtain ⟨hpre, hcount⟩ := generateContextName_slashCount ctx
  refine ⟨?_, hpre⟩
  rw [hcount, hns, hcl]
  simp [hc, ha]

/-- Instance of C7 (amended): namespace team, cluster kind, user admin/token. -/
theorem generateContextName_two_separators_witness :
    slashCount (generateContextName
      { Namespace := "team", Cluster := "kind", AuthInfo := "admin/token" }) = 2 ∧
    ∃ rest, generateContextName
      { Namespace := "team", Cluster := "kind", AuthInfo := "admin/token" } = "team" ++ rest :=
  generateContextName_two_separators
    { Namespace := "team", Cluster := "kind", AuthInfo := "admin/token" }
    (by decide) (by decide) (by decide) (by decide)

/-- C8 as stated fails: with no override and a current context that names no
cluster, Complete sets the name '/admin', not namespace ++ "/" ++ cluster ++ "/"
++ head, which is '//admin'. -/
theorem Complete_name_without_cluster :
    ∃ (c1 : ConsoleConfig) (ctx : Context),
      (ConsoleConfig.Complete (healthyCluster noClusterConfig) ConsoleConfig.new []).run.1 =
        Except.ok c1 ∧
      c1.resultingContext = some ctx ∧
      c1.resultingContextName = "/admin" ∧
      ctx.Namespace ++ "/" ++ ctx.Cluster ++ "/" ++ headSegment ctx.AuthInfo = "//admin" ∧
      c1.resultingContextName ≠
        ctx.Namespace ++ "/" ++ ctx.Cluster ++ "/" ++ headSegment ctx.AuthInfo := by
  obtain ⟨res, hres, -, -, hsome⟩ :=
    Complete_apply (healthyCluster noClusterConfig) ConsoleConfig.new [] []
  obtain ⟨c1, hc1, hname⟩ :=
    hsome rfl { Namespace := "", Cluster := "", AuthInfo := "admin" } rfl
  obtain ⟨ctx, hctx, hgen, hns, hcl, hau⟩ := hname rfl
  have hctxeq : ctx = { Namespace := "", Cluster := "", AuthInfo := "admin" } := by
    cases ctx
    simp at hns hcl hau
    simp [hns, hcl, hau, ConsoleConfig.new]
  have hname1 : c1.resultingContextName = "/admin" := by
    rw [hgen, hctxeq, generateContextName_eq]; decide
  have hclaim : ctx.Namespace ++ "/" ++ ctx.Cluster ++ "/" ++ headSegment ctx.AuthInfo =
      "//admin" := by
    rw [hctxeq]; decide
  refine ⟨c1, ctx, ?_, hctx, hname1, hclaim, ?_⟩
  · rw [Act.run_def, hres, hc1]
  · rw [hname1, hclaim]; decide

/-- C8 (amended): when no context override is given and the loaded kubeconfig
has an entry for its current context, Complete succeeds and sets the name to
the namespace, followed by "/" and the cluster when the cluster is not empty,
followed by "/" and the head of the auth-info (its portion before the first '/')
when the auth-info is not empty; so the name is namespace ++ "/" ++ cluster ++ "/"
++ head whenever cluster and auth-info are both non-empty. -/
theorem Complete_generated_name (w : Cluster) (c : ConsoleConfig) (args : List String)
    (cur : Context) (hctx : c.userSpecifiedContext = "") (hload : w.rawConfig.2 = none)
    (hcur : w.rawConfig.1.Contexts w.rawConfig.1.CurrentContext = some cur) :
    ∃ (c1 : ConsoleConfig) (ctx : Context),
      (ConsoleConfig.Complete w c args).run.1 = Except.ok c1 ∧
      c1.resultingContext = some ctx ∧
      c1.resultingContextName =
        ctx.Namespace ++ (if ctx.Cluster = "" then "" else "/" ++ ctx.Cluster) ++
          (if ctx.AuthInfo = "" then "" else "/" ++ headSegment ctx.AuthInfo) ∧
      (ctx.Cluster ≠ "" → ctx.AuthInfo ≠ "" →
        c1.resultingContextName =
          ctx.Namespace ++ "/" ++ ctx.Cluster ++ "/" ++ headSegment ctx.AuthInfo) := by
  obtain ⟨res, hres, -, -, hsome⟩ := Complete_apply w c args []
  obtain ⟨c1, hc1, hname⟩ := hsome hload cur hcur
  obtain ⟨ctx, hrc, hgen, -, -, -⟩ := hname hctx
  refine ⟨c1, ctx, ?_, hrc, ?_, ?_⟩
  · rw [Act.run_def, hres, hc1]
  · rw [hgen, generateContextName_eq]
  · intro hc ha
    rw [hgen, generateContextName_eq]
    simp [hc, ha, String.append_assoc]

/-- Instance of C8 (amended): current context dev with cluster kind and user
admin/token gives the name '/kind/admin'. -/
theorem Complete_generated_name_witness :
    ∃ (c1 : ConsoleConfig) (ctx : Context),
      (ConsoleConfig.Complete (healthyCluster devConfig) ConsoleConfig.new []).run.1 =
        Except.ok c1 ∧
      c1.resultingContext = some ctx ∧
      c1.resultingContextName =
        ctx.Namespace ++ (if ctx.Cluster = "" then "" else "/" ++ ctx.Cluster) ++
          (if ctx.AuthInfo = "" then "" else "/" ++ headSegment ctx.AuthInfo) ∧
      (ctx.Cluster ≠ "" → ctx.AuthInfo ≠ "" →
        c1.resultingContextName =
          ctx.Namespace ++ "/" ++ ctx.Cluster ++ "/" ++ headSegment ctx.AuthInfo) :=
  Complete_generated_name (healthyCluster devConfig) ConsoleConfig.new []
    { Namespace := "", Cluster := "kind", AuthInfo := "admin/token" } rfl rfl rfl

/-! ## The hostgroup commands -/

/-- C9 (defect): with release hostgroup at 0.1.0 and release cosmonic-control at
0.9.0, the bare hostgroup command queries the release store and the registry for
'cosmonic-control' and reports the versions of the control chart, whereas the
hostgroup line of the version command looks up release 'hostgroup' and chart
'cosmonic-control-hostgroup'. -/
theorem hostgroup_reports_control_chart :
    (hostgroupRunE twoReleases).run =
      (Except.ok (),
        [HelmEvent.init "cosmonic-system" "",
          HelmEvent.listRun "cosmonic-control",
          HelmEvent.newRepository "ghcr.io/cosmonic/cosmonic-control",
          HelmEvent.repoTags "ghcr.io/cosmonic/cosmonic-control",
          HelmEvent.logPrintf "nexus installed version [0.9.0], repo version [0.9.0]\n"]) ∧
    (VersionConfig.logChartVersion twoReleases "hostgroup" hostgroupInstalledChartName
        hostgroupRepoChartName).run =
      (Except.ok "component hostgroup: installed [0.1.0], available [0.2.0]",
        [HelmEvent.listRun "hostgroup",
          HelmEvent.newRepository "ghcr.io/cosmonic/cosmonic-control-hostgroup",
          HelmEvent.repoTags "ghcr.io/cosmonic/cosmonic-control-hostgroup"]) := by
  constructor
  · simp [hostgroupRunE, Initialize, ChartManager.New, HostgroupConfig.Run,
      ChartManager.GetInstalledChartVersion, ChartManager.GetRepoChartVersion, Act.run,
      Act.bind_apply, Act.andThen, Act.call, Act.fail, Act.pure_apply, twoReleases, emptyHelm,
      tagRetriever, sortStrings, controlChartName, cosmonicNamespace]
  · simp [VersionConfig.logChartVersion,
      ChartManager.GetInstalledChartVersion, ChartManager.GetRepoChartVersion, Act.run,
      Act.bind_apply, Act.andThen, Act.call, Act.fail, Act.pure_apply, twoReleases, emptyHelm,
      tagRetriever, sortStrings, hostgroupInstalledChartName, hostgroupRepoChartName]

/-- C10 (defect): on an empty release store, hostgroup install runs the install
action for the chart located at oci://ghcr.io/cosmonic/cosmonic-control-hostgroup
with the release name 'cosmonic-control', while hostgroup uninstall and hostgroup
update address the release 'hostgroup'. -/
theorem hostgroup_install_release_name :
    (hostgroupInstallRunE freshCluster).run =
      (Except.ok (),
        [HelmEvent.init "cosmonic-system" "",
          HelmEvent.listRun "cosmonic-control-hostgroup",
          HelmEvent.newRepository "ghcr.io/cosmonic/cosmonic-control-hostgroup",
          HelmEvent.repoTags "ghcr.io/cosmonic/cosmonic-control-hostgroup",
          HelmEvent.newRegistryClient,
          HelmEvent.locateChart "oci://ghcr.io/cosmonic/cosmonic-control-hostgroup" "0.2.0",
          HelmEvent.loadChart "/cache/oci://ghcr.io/cosmonic/cosmonic-control-hostgroup-0.2.0.tgz",
          HelmEvent.installRun
            { DryRunOption := "none", ReleaseName := "cosmonic-control", Version := "0.2.0" }
            { Name := "/cache/oci://ghcr.io/cosmonic/cosmonic-control-hostgroup-0.2.0.tgz",
              Dependencies := none }]) ∧
    (hostgroupUninstallRunE freshCluster).run =
      (Except.ok (),
        [HelmEvent.init "cosmonic-system" "",
          HelmEvent.uninstallRun { DeletionPropagation := "foreground" } "hostgroup"]) ∧
    (hostgroupUpdateRunE freshCluster).run =
      (Except.error "chart not found",
        [HelmEvent.init "cosmonic-system" "",
          HelmEvent.newRepository "ghcr.io/cosmonic/hostgroup",
          HelmEvent.repoTags "ghcr.io/cosmonic/hostgroup",
          HelmEvent.listRun "hostgroup"]) := by
  refine ⟨?_, ?_, ?_⟩
  · simp [hostgroupInstallRunE, Initialize, ChartManager.New, ChartManager.Install,
      ChartManager.GetInstalledChartVersion, ChartManager.GetRepoChartVersion,
      ChartManager.CheckDependencies, ChartManager.chartRegistryName, newRegistryClient,
      cosmonicChartRegistry, Act.run, Act.attempt,
      Act.bind_apply, Act.andThen, Act.call, Act.fail, Act.pure_apply, freshCluster, emptyHelm,
      tagRetriever, sortStrings, hostgroupRepoChartName, cosmonicNamespace]
  · simp [hostgroupUninstallRunE, Initialize, ChartManager.New, ChartManager.UnInstall,
      Act.run, Act.bind_apply, Act.andThen, Act.call, Act.fail, Act.pure_apply, freshCluster,
      emptyHelm, hostgroupInstalledChartName, cosmonicNamespace]
  · simp [hostgroupUpdateRunE, Initialize, ChartManager.New, ChartManager.Update,
      ChartManager.GetInstalledChartVersion, ChartManager.GetRepoChartVersion,
      Act.run, Act.bind_apply, Act.andThen, Act.call, Act.fail, Act.pure_apply, freshCluster,
      emptyHelm, tagRetriever, sortStrings, hostgroupInstalledChartName, cosmonicNamespace]

/-! ## Registry coordinate of the hostgroup update, and errors of Install -/

/-- C11 (defect): with release hostgroup at 0.1.0, hostgroup update asks the
registry for the tags of ghcr.io/cosmonic/hostgroup and locates the chart at
oci://ghcr.io/cosmonic/hostgroup, whereas hostgroup install resolves and locates
the chart at the coordinate of cosmonic-control-hostgroup. -/
theorem hostgroup_update_registry_coordinate :
    (hostgroupUpdateRunE hostgroupInstalled).run =
      (Except.ok (),
        [HelmEvent.init "cosmonic-system" "",
          HelmEvent.newRepository "ghcr.io/cosmonic/hostgroup",
          HelmEvent.repoTags "ghcr.io/cosmonic/hostgroup",
          HelmEvent.listRun "hostgroup",
          HelmEvent.newRegistryClient,
          HelmEvent.locateChart "oci://ghcr.io/cosmonic/hostgroup" "0.2.0",
          HelmEvent.loadChart "/cache/oci://ghcr.io/cosmonic/hostgroup-0.2.0.tgz",
          HelmEvent.upgradeRun
            { Namespace := "cosmonic-system", DryRunOption := "none", Version := "0.2.0" }
            "hostgroup"
            { Name := "/cache/oci://ghcr.io/cosmonic/hostgroup-0.2.0.tgz",
              Dependencies := none }]) ∧
    ChartManager.chartRegistryName hostgroupRepoChartName =
      "oci://ghcr.io/cosmonic/cosmonic-control-hostgroup" ∧
    HelmEvent.locateChart "oci://ghcr.io/cosmonic/cosmonic-control-hostgroup" "0.2.0" ∈
      (hostgroupInstallRunE hostgroupInstalled).run.2 ∧
    HelmEvent.repoTags "ghcr.io/cosmonic/cosmonic-control-hostgroup" ∈
      (hostgroupInstallRunE hostgroupInstalled).run.2 := by
  have hnlt : ¬ (['0', '.', '2', '.', '0'] : List Char) < ['0', '.', '1', '.', '0'] := by
    decide
  refine ⟨?_, by decide, ?_, ?_⟩
  · simp [hostgroupUpdateRunE, Initialize, ChartManager.New, ChartManager.Update,
      ChartManager.GetInstalledChartVersion, ChartManager.GetRepoChartVersion,
      ChartManager.CheckDependencies, ChartManager.chartRegistryName, newRegistryClient,
      cosmonicChartRegistry, Act.run, Act.bind_apply, Act.andThen, Act.call, Act.fail,
      Act.pure_apply, hostgroupInstalled, emptyHelm, tagRetriever, sortStrings,
      hostgroupInstalledChartName, cosmonicNamespace, hnlt]
  · simp [hostgroupInstallRunE, Initialize, ChartManager.New, ChartManager.Install,
      ChartManager.GetInstalledChartVersion, ChartManager.GetRepoChartVersion,
      ChartManager.CheckDependencies, ChartManager.chartRegistryName, newRegistryClient,
      cosmonicChartRegistry, Act.run, Act.attempt, Act.bind_apply, Act.andThen, Act.call,
      Act.fail, Act.pure_apply, hostgroupInstalled, emptyHelm, tagRetriever, sortStrings,
      hostgroupRepoChartName, cosmonicNamespace]
  · simp [hostgroupInstallRunE, Initialize, ChartManager.New, ChartManager.Install,
      ChartManager.GetInstalledChartVersion, ChartManager.GetRepoChartVersion,
      ChartManager.CheckDependencies, ChartManager.chartRegistryName, newRegistryClient,
      cosmonicChartRegistry, Act.run, Act.attempt, Act.bind_apply, Act.andThen, Act.call,
      Act.fail, Act.pure_apply, hostgroupInstalled, emptyHelm, tagRetriever, sortStrings,
      hostgroupRepoChartName, cosmonicNamespace]

/-- C12 (defect): when the list query of the release store fails, so that
GetInstalledChartVersion returns 'failed to run list action: ...', Install
does not return that error: it goes on to the registry lookup, locates and
loads the chart, runs the install action and returns nil. -/
theorem Install_swallows_list_error :
    (ChartManager.GetInstalledChartVersion unreachableStore "cosmonic-control").run.1 =
      Except.error "failed to run list action: Kubernetes cluster unreachable" ∧
    (ChartManager.Install unreachableStore "cosmonic-control").run =
      (Except.ok (),
        [HelmEvent.listRun "cosmonic-control",
          HelmEvent.newRepository "ghcr.io/cosmonic/cosmonic-control",
          HelmEvent.repoTags "ghcr.io/cosmonic/cosmonic-control",
          HelmEvent.newRegistryClient,
          HelmEvent.locateChart "oci://ghcr.io/cosmonic/cosmonic-control" "0.2.0",
          HelmEvent.loadChart "/cache/oci://ghcr.io/cosmonic/cosmonic-control-0.2.0.tgz",
          HelmEvent.installRun
            { DryRunOption := "none", ReleaseName := "cosmonic-control", Version := "0.2.0" }
            { Name := "/cache/oci://ghcr.io/cosmonic/cosmonic-control-0.2.0.tgz",
              Dependencies := none }]) := by
  constructor
  · simp [Act.run_def, GetInstalledChartVersion_apply, unreachableStore, emptyHelm]
  · simp [ChartManager.Install,
      ChartManager.GetInstalledChartVersion, ChartManager.GetRepoChartVersion,
      ChartManager.CheckDependencies, ChartManager.chartRegistryName, newRegistryClient,
      cosmonicChartRegistry, Act.run, Act.attempt, Act.bind_apply, Act.andThen, Act.call,
      Act.fail, Act.pure_apply, unreachableStore, emptyHelm, tagRetriever, sortStrings]

/-! ## Pod selection of the tunnel -/

theorem portMapping_eq (localPort : Nat) :
    toString localPort ++ ":" ++ toString (8080 : Nat) = toString localPort ++ ":8080" := by
  have h : (":" : String) ++ toString (8080 : Nat) = ":8080" := by decide
  rw [String.append_assoc, h]

/-- C13: whatever pod list the API returns for the selector of the console
deployment, PortForward fails with 'no pod found for console deployment' when
the list is empty; otherwise every forwarder it creates targets the portforward
sub-resource of the first pod of the list in cosmonic-system, whatever the phase
and readiness of the pods, with the single port mapping localPort:8080, and it
does create that forwarder once the transport is set up. -/
theorem PortForward_first_pod (w : Cluster) (localPort : Nat) (config : RestConfig)
    (deploy : Deployment) (pods : List Pod)
    (hcfg : w.clientConfig = Except.ok config) (hnew : w.newForConfig = none)
    (hdep : w.getDeployment "cosmonic-system" "console" = Except.ok deploy)
    (hpods : w.listPods "cosmonic-system" (w.labelSelector deploy.MatchLabels) =
      Except.ok pods) :
    (pods = [] →
      (ConsoleConfig.PortForward w false localPort).run =
        (Except.error "no pod found for console deployment",
          [ConsoleEvent.clientConfig, ConsoleEvent.newForConfig,
            ConsoleEvent.getDeployment "cosmonic-system" "console",
            ConsoleEvent.listPods "cosmonic-system" (w.labelSelector deploy.MatchLabels)])) ∧
    (∀ (first : Pod) (rest : List Pod), pods = first :: rest →
      (∀ ns pod sub ports,
        ConsoleEvent.portforwardNew ns pod sub ports ∈
            (ConsoleConfig.PortForward w false localPort).run.2 →
          ns = "cosmonic-system" ∧ pod = first.Name ∧ sub = "portforward" ∧
            ports = [toString localPort ++ ":8080"]) ∧
      (w.roundTripperFor = none →
        ConsoleEvent.portforwardNew "cosmonic-system" first.Name "portforward"
            [toString localPort ++ ":8080"] ∈
          (ConsoleConfig.PortForward w false localPort).run.2)) := by
  have hns : cosmonicNamespace = "cosmonic-system" := rfl
  have hcd : consoleDeployment = "console" := rfl
  have hk : ∀ log, ConsoleConfig.k8sClient w log =
      (Except.ok config, log ++ [ConsoleEvent.clientConfig, ConsoleEvent.newForConfig]) := by
    intro log
    rw [k8sClient_apply, hcfg]
    simp only [hnew]
  constructor
  · intro hempty
    subst hempty
    unfold ConsoleConfig.PortForward
    simp only [Bool.false_eq_true, if_false, Act.run_def, portMapping_eq]
    rw [Act.bind_ok (hk [])]
    simp [hns, hcd, Act.bind_apply, Act.andThen, Act.call, Act.fail, hdep, hpods]
  · intro first rest hcons
    subst hcons
    unfold ConsoleConfig.PortForward
    simp only [Bool.false_eq_true, if_false, Act.run_def, portMapping_eq]
    rw [Act.bind_ok (hk [])]
    cases hrt : w.roundTripperFor with
    | some e1 =>
      simp [hns, hcd, Act.bind_apply, Act.andThen, Act.call, Act.fail, hdep, hpods, hrt]
    | none =>
      cases hpf : w.portforwardNew first.Name [toString localPort ++ ":8080"] with
      | some e2 =>
        simp [hns, hcd, Act.bind_apply, Act.andThen, Act.call, Act.fail, hdep, hpods, hrt,
          hpf]
      | none =>
        rcases hfw : w.forwardPorts with _ | (_ | e3) <;>
          simp [hns, hcd, Act.bind_apply, Act.andThen, Act.call, Act.fail, Act.pure_apply,
            hdep, hpods, hrt, hpf, hfw]

/-- Instance of C13: the first pod of the list is pending and not ready, and the
forwarder for local port 8080 is created for it. -/
theorem PortForward_first_pod_witness :
    ConsoleEvent.portforwardNew "cosmonic-system" "console-a" "portforward" ["8080:8080"] ∈
      (ConsoleConfig.PortForward pendingFirstPod false 8080).run.2 :=
  ((PortForward_first_pod pendingFirstPod 8080 { Host := "https://10.0.0.1:6443" }
    { ReadyReplicas := 1, MatchLabels := [("app", "console")] }
    [{ Name := "console-a", Phase := "Pending", Ready := false },
      { Name := "console-b", Phase := "Running", Ready := true }] rfl rfl rfl rfl).2
    { Name := "console-a", Phase := "Pending", Ready := false }
    [{ Name := "console-b", Phase := "Running", Ready := true }] rfl).2 rfl

/-! ## Uninstall -/

/-- C15: UnInstall returns nil exactly when the uninstall action of the runtime
returns neither an error nor a response; an error of the runtime is returned
unchanged, and a response without an error gives the error 'uninstall returned '
followed by the response.  Its only external call is the uninstall action, with
foreground deletion propagation. -/
theorem UnInstall_result (h : Helm) (chartName : String) :
    ((ChartManager.UnInstall h chartName).run.1 = Except.ok () ↔
      h.uninstallRun { DeletionPropagation := "foreground" } chartName = (none, none)) ∧
    (∀ err, (h.uninstallRun { DeletionPropagation := "foreground" } chartName).2 = some err →
      (ChartManager.UnInstall h chartName).run.1 = Except.error err) ∧
    (∀ resp, (h.uninstallRun { DeletionPropagation := "foreground" } chartName).2 = none →
      (h.uninstallRun { DeletionPropagation := "foreground" } chartName).1 = some resp →
      (ChartManager.UnInstall h chartName).run.1 =
        Except.error ("uninstall returned " ++ resp)) ∧
    (ChartManager.UnInstall h chartName).run.2 =
      [HelmEvent.uninstallRun { DeletionPropagation := "foreground" } chartName] := by
  unfold ChartManager.UnInstall
  rcases hrun : h.uninstallRun { DeletionPropagation := "foreground" } chartName with
    ⟨resp, err⟩
  cases err with
  | some e =>
    simp [Act.run, Act.bind_apply, Act.andThen, Act.call, Act.fail, hrun]
  | none =>
    cases resp with
    | some r =>
      simp [Act.run, Act.bind_apply, Act.andThen, Act.call, Act.fail, hrun]
    | none =>
      simp [Act.run, Act.bind_apply, Act.andThen, Act.call, Act.pure_apply, hrun]

/-- Instances of C15: an uninstall action without error and response gives nil,
and one that answers with a response gives the 'uninstall returned' error. -/
theorem UnInstall_result_witness :
    (ChartManager.UnInstall emptyHelm "hostgroup").run.1 = Except.ok () ∧
    (ChartManager.UnInstall respondingHelm "hostgroup").run.1 =
      Except.error "uninstall returned &\x7brelease hostgroup uninstalled\x7d" :=
  ⟨(UnInstall_result emptyHelm "hostgroup").1.2 rfl,
    (UnInstall_result respondingHelm "hostgroup").2.2.1 "&\x7brelease hostgroup uninstalled\x7d"
      rfl rfl⟩

/-! ## Order of the operator-facing steps of Run -/

theorem findLocalPortLoop_log (w : Cluster) (ports : List Nat) :
    ∃ (res : Except Error Nat) (evs : List ConsoleEvent),
      (∀ log, findLocalPortLoop w ports log = (res, log ++ evs)) ∧
      ∀ ev ∈ evs, ev.isUserFacing = false := by
  induction ports with
  | nil =>
    exact ⟨Except.error "local port for port-forwarding not found", [],
      fun log => by simp [findLocalPortLoop, Act.fail_apply], by simp⟩
  | cons p rest ih =>
    obtain ⟨res, evs, hrun, hquiet⟩ := ih
    cases hl : w.listen p with
    | none =>
      refine ⟨Except.ok p, [ConsoleEvent.listen p, ConsoleEvent.close p], fun log => ?_, ?_⟩
      · rw [findLocalPortLoop_cons, hl]
        simp
      · simp [ConsoleEvent.isUserFacing]
    | some e =>
      refine ⟨res, ConsoleEvent.listen p :: evs, fun log => ?_, ?_⟩
      · rw [findLocalPortLoop_cons, hl]
        simp only []
        rw [hrun]
        simp
      · intro ev hev
        rcases List.mem_cons.1 hev with h1 | h1
        · subst h1; rfl
        · exact hquiet ev h1

theorem PortForward_log (w : Cluster) (ctxClosed : Bool) (localPort : Nat) :
    (∀ log, ConsoleConfig.PortForward w ctxClosed localPort log =
      ((ConsoleConfig.PortForward w ctxClosed localPort []).1,
        log ++ (ConsoleConfig.PortForward w ctxClosed localPort []).2)) ∧
    (∀ ev ∈ (ConsoleConfig.PortForward w ctxClosed localPort []).2, ev.isUserFacing = false) ∧
    ((ConsoleConfig.PortForward w ctxClosed localPort []).1 = Except.ok TunnelOutcome.ready →
      w.forwardPorts = TunnelOutcome.ready ∧
        ∃ pre, (ConsoleConfig.PortForward w ctxClosed localPort []).2 =
          pre ++ [ConsoleEvent.forwardPorts]) := by
  unfold ConsoleConfig.PortForward
  cases ctxClosed with
  | true => simp [Act.fail_apply]
  | false =>
    simp only [Bool.false_eq_true, if_false, Act.bind_apply, Act.andThen, k8sClient_apply,
      Act.call_apply]
    rcases hcfg : w.clientConfig with e | config
    · simp [Act.bind_apply, Act.andThen, Act.call_apply, Act.fail_apply, ConsoleEvent.isUserFacing]
    · cases hnew : w.newForConfig with
      | some e => simp [Act.bind_apply, Act.andThen, Act.call_apply, Act.fail_apply, ConsoleEvent.isUserFacing]
      | none =>
        simp only [Act.bind_apply, Act.andThen, Act.call_apply]
        rcases hdep : w.getDeployment cosmonicNamespace consoleDeployment with e | deploy
        · simp [Act.bind_apply, Act.andThen, Act.call_apply, Act.fail_apply, ConsoleEvent.isUserFacing]
        · simp only []
          rcases hpods : w.listPods cosmonicNamespace (w.labelSelector deploy.MatchLabels)
            with e | pods
          · simp [Act.bind_apply, Act.andThen, Act.call_apply, Act.fail_apply, ConsoleEvent.isUserFacing]
          · cases pods with
            | nil => simp [Act.bind_apply, Act.andThen, Act.call_apply, Act.fail_apply, ConsoleEvent.isUserFacing]
            | cons first rest =>
              simp only [Act.bind_apply, Act.andThen, Act.call_apply]
              cases hrt : w.roundTripperFor with
              | some e => simp [Act.bind_apply, Act.andThen, Act.call_apply, Act.fail_apply, ConsoleEvent.isUserFacing]
              | none =>
                simp only [Act.bind_apply, Act.andThen, Act.call_apply]
                cases hpf : w.portforwardNew first.Name
                    [toString localPort ++ ":" ++ toString 8080] with
                | some e => simp [Act.bind_apply, Act.andThen, Act.call_apply, Act.fail_apply, ConsoleEvent.isUserFacing]
                | none =>
                  simp only [Act.bind_apply, Act.andThen, Act.call_apply]
                  rcases hfw : w.forwardPorts with _ | (_ | e)
                  · refine ⟨fun log => by simp [Act.bind_apply, Act.andThen, Act.call_apply, Act.pure_apply], by
                      simp [Act.bind_apply, Act.andThen, Act.call_apply, Act.pure_apply, ConsoleEvent.isUserFacing], fun _ => ⟨rfl, ?_⟩⟩
                    exact ⟨[ConsoleEvent.clientConfig, ConsoleEvent.newForConfig,
                        ConsoleEvent.getDeployment cosmonicNamespace consoleDeployment,
                        ConsoleEvent.listPods cosmonicNamespace
                          (w.labelSelector deploy.MatchLabels),
                        ConsoleEvent.logPrintf
                          ("hostIP is " ++ stringsTrimLeft config.Host "htps:/"),
                        ConsoleEvent.roundTripperFor,
                        ConsoleEvent.portforwardNew cosmonicNamespace first.Name "portforward"
                          [toString localPort ++ ":" ++ toString 8080]],
                      by simp [Act.pure_apply]⟩
                  · simp [Act.bind_apply, Act.andThen, Act.call_apply, Act.pure_apply, ConsoleEvent.isUserFacing]
                  · simp [Act.bind_apply, Act.andThen, Act.call_apply, Act.fail_apply, ConsoleEvent.isUserFacing]

theorem Run_run_eq (w : Cluster) :
    (ConsoleConfig.Run w).run =
      match (ConsoleConfig.findLocalPort w).run with
      | (Except.error e, evsF) => (Except.error e, evsF)
      | (Except.ok port, evsF) =>
        match (ConsoleConfig.PortForward w false port).run with
        | (Except.ok TunnelOutcome.ready, evsP) =>
          (Except.ok (), evsF ++ evsP ++
            [ConsoleEvent.printf (promptLine port), ConsoleEvent.readStdin,
              ConsoleEvent.openURL ("http://localhost:" ++ toString port), ConsoleEvent.park])
        | (Except.ok (TunnelOutcome.returned _), evsP) =>
          (Except.ok (), evsF ++ evsP ++
            [ConsoleEvent.printf "Error with starting port forwarding, error <nil>"])
        | (Except.error err, evsP) =>
          (Except.error err, evsF ++ evsP ++
            [ConsoleEvent.printf ("Error with starting port forwarding, error " ++ err)]) := by
  unfold ConsoleConfig.Run
  simp only [Act.run_def]
  rcases hF : ConsoleConfig.findLocalPort w [] with ⟨resF, evsF⟩
  cases resF with
  | error e => rw [Act.bind_error hF]
  | ok port =>
    rw [Act.bind_ok hF]
    simp only []
    have hlog := (PortForward_log w false port).1 evsF
    rcases hP : ConsoleConfig.PortForward w false port [] with ⟨resP, evsP⟩
    rw [hP] at hlog
    simp only [] at hlog
    have hatt : Act.attempt (ConsoleConfig.PortForward w false port) evsF =
        (Except.ok resP, evsF ++ evsP) := by
      simp [Act.attempt, hlog]
    rw [Act.bind_ok hatt]
    rcases resP with err | (_ | x)
    · simp [Act.bind_apply, Act.andThen, Act.call_apply, Act.fail_apply]
    · simp [Act.bind_apply, Act.andThen, Act.call_apply, Act.pure_apply, promptLine]
    · simp [Act.bind_apply, Act.andThen, Act.call_apply, Act.pure_apply]

/-- What holds of every run of Run: a browser open is the last step before the
final wait and comes right after, in this order, the readiness of the tunnel
(the forwarder answered ready), the print of the prompt line and the return of
the read of standard input, every earlier step being a bind attempt or a step of
the tunnel setup; and when PortForward returns an error on the error channel,
Run returns that error, having printed only the line 'Error with starting port
forwarding, error ...' and neither read standard input nor opened the browser.
The read is only known to have returned: its answer is dropped. -/
theorem Run_order_of_steps (w : Cluster) :
    (∀ url, ConsoleEvent.openURL url ∈ (ConsoleConfig.Run w).run.2 →
      w.forwardPorts = TunnelOutcome.ready ∧
      ∃ (pre : List ConsoleEvent) (port : Nat),
        (ConsoleConfig.findLocalPort w).run.1 = Except.ok port ∧
        url = "http://localhost:" ++ toString port ∧
        (ConsoleConfig.Run w).run.2 =
          pre ++ [ConsoleEvent.forwardPorts, ConsoleEvent.printf (promptLine port),
            ConsoleEvent.readStdin, ConsoleEvent.openURL url, ConsoleEvent.park] ∧
        ∀ ev ∈ pre, ev.isUserFacing = false) ∧
    (∀ port err, (ConsoleConfig.findLocalPort w).run.1 = Except.ok port →
      (ConsoleConfig.PortForward w false port).run.1 = Except.error err →
      (ConsoleConfig.Run w).run.1 = Except.error err ∧
      ∃ pre : List ConsoleEvent,
        (ConsoleConfig.Run w).run.2 =
          pre ++ [ConsoleEvent.printf ("Error with starting port forwarding, error " ++ err)] ∧
        ∀ ev ∈ pre, ev.isUserFacing = false) := by
  obtain ⟨resL, evsL, hL, hquietL⟩ := findLocalPortLoop_log w portRange
  have hF : (ConsoleConfig.findLocalPort w).run = (resL, evsL) := by
    unfold ConsoleConfig.findLocalPort
    rw [Act.run_def, hL]
    simp
  rw [Run_run_eq, hF]
  cases resL with
  | error e =>
    refine ⟨fun url hmem => ?_, fun port err hport _ => ?_⟩
    · have := hquietL _ hmem
      simp [ConsoleEvent.isUserFacing] at this
    · simp at hport
  | ok port =>
    simp only []
    obtain ⟨-, hquietP, hready⟩ := PortForward_log w false port
    rcases hP : (ConsoleConfig.PortForward w false port).run with ⟨resP, evsP⟩
    rw [Act.run_def] at hP
    rw [hP] at hquietP hready
    simp only [] at hquietP hready
    rcases resP with err | (_ | x)
    · refine ⟨fun url hmem => ?_, fun port1 err1 hport herr => ?_⟩
      · simp only [List.mem_append, List.mem_singleton] at hmem
        rcases hmem with (hmem | hmem) | hmem
        · have := hquietL _ hmem
          simp [ConsoleEvent.isUserFacing] at this
        · have := hquietP _ hmem
          simp [ConsoleEvent.isUserFacing] at this
        · simp at hmem
      · have hp : port = port1 := by simpa using hport
        subst hp
        rw [Act.run_def, hP] at herr
        have he : err = err1 := by simpa using herr
        subst he
        refine ⟨rfl, evsL ++ evsP, rfl, fun ev hev => ?_⟩
        rcases List.mem_append.1 hev with h1 | h1
        · exact hquietL ev h1
        · exact hquietP ev h1
    · obtain ⟨hfw, preP, hpre⟩ := hready rfl
      refine ⟨fun url hmem => ⟨hfw, evsL ++ preP, port, rfl, ?_, ?_, ?_⟩,
        fun port1 err1 hport herr => ?_⟩
      · simp only [List.mem_append, List.mem_cons, List.mem_singleton] at hmem
        rcases hmem with (hmem | hmem) | hmem
        · have := hquietL _ hmem
          simp [ConsoleEvent.isUserFacing] at this
        · have := hquietP _ hmem
          simp [ConsoleEvent.isUserFacing] at this
        · simpa using hmem
      · have hurl : url = "http://localhost:" ++ toString port := by
          simp only [List.mem_append, List.mem_cons, List.mem_singleton] at hmem
          rcases hmem with (hmem | hmem) | hmem
          · have := hquietL _ hmem
            simp [ConsoleEvent.isUserFacing] at this
          · have := hquietP _ hmem
            simp [ConsoleEvent.isUserFacing] at this
          · simpa using hmem
        rw [hurl, hpre]
        simp
      · intro ev hev
        rcases List.mem_append.1 hev with h1 | h1
        · exact hquietL ev h1
        · exact hquietP ev (by rw [hpre]; exact List.mem_append_left _ h1)
      · have hp : port = port1 := by simpa using hport
        subst hp
        rw [Act.run_def, hP] at herr
        simp at herr
    · refine ⟨fun url hmem => ?_, fun port1 err1 hport herr => ?_⟩
      · simp only [List.mem_append, List.mem_singleton] at hmem
        rcases hmem with (hmem | hmem) | hmem
        · have := hquietL _ hmem
          simp [ConsoleEvent.isUserFacing] at this
        · have := hquietP _ hmem
          simp [ConsoleEvent.isUserFacing] at this
        · simp at hmem
      · have hp : port = port1 := by simpa using hport
        subst hp
        rw [Act.run_def, hP] at herr
        simp at herr

theorem findLocalPort_first_free (w : Cluster) (hfree : w.listen 8080 = none) :
    (ConsoleConfig.findLocalPort w).run =
      (Except.ok 8080, [ConsoleEvent.listen 8080, ConsoleEvent.close 8080]) := by
  have hstart : portRange = List.range' 8080 (200 + 1) := rfl
  have hrange : portRange = 8080 :: List.range' 8081 200 := by
    rw [hstart, List.range'_succ]
  unfold ConsoleConfig.findLocalPort
  rw [Act.run_def, hrange, findLocalPortLoop_cons, hfree]
  simp

/-- Scenario 4 and a failing tunnel: on the healthy cluster the browser is
opened at http://localhost:8080 after readiness, prompt and read; with a
forwarder that fails before readiness Run returns its error. -/
theorem Run_order_on_healthy_and_broken_tunnel :
    ((healthyCluster devConfig).forwardPorts = TunnelOutcome.ready ∧
      ∃ (pre : List ConsoleEvent) (port : Nat),
        (ConsoleConfig.findLocalPort (healthyCluster devConfig)).run.1 = Except.ok port ∧
        "http://localhost:8080" = "http://localhost:" ++ toString port ∧
        (ConsoleConfig.Run (healthyCluster devConfig)).run.2 =
          pre ++ [ConsoleEvent.forwardPorts, ConsoleEvent.printf (promptLine port),
            ConsoleEvent.readStdin, ConsoleEvent.openURL "http://localhost:8080",
            ConsoleEvent.park] ∧
        ∀ ev ∈ pre, ev.isUserFacing = false) ∧
    (ConsoleConfig.Run brokenTunnel).run.1 = Except.error "error upgrading connection" := by
  have hopen : ConsoleEvent.openURL "http://localhost:8080" ∈
      (ConsoleConfig.Run (healthyCluster devConfig)).run.2 := by
    rw [Run_run_eq, findLocalPort_first_free _ rfl]
    simp [ConsoleConfig.PortForward, ConsoleConfig.k8sClient, Act.run, Act.bind_apply,
      Act.andThen, Act.call_apply, Act.pure_apply, healthyCluster]
    decide
  have hport : (ConsoleConfig.findLocalPort brokenTunnel).run.1 = Except.ok 8080 := by
    rw [findLocalPort_first_free _ rfl]
  have hfail : (ConsoleConfig.PortForward brokenTunnel false 8080).run.1 =
      Except.error "error upgrading connection" := by
    simp [ConsoleConfig.PortForward, ConsoleConfig.k8sClient, Act.run, Act.bind_apply,
      Act.andThen, Act.call_apply, Act.fail_apply, Act.pure_apply, brokenTunnel, healthyCluster]
  exact ⟨(Run_order_of_steps (healthyCluster devConfig)).1
      "http://localhost:8080" hopen,
    ((Run_order_of_steps brokenTunnel).2 8080 "error upgrading connection"
      hport hfail).1⟩

/-- C14 (defect): with standard input at its end, so that the read returns no
byte and the error EOF, and a tunnel that becomes ready, Run prints the prompt,
makes the read and opens the browser at http://localhost:8080 although no line
has been read: both results of the read are dropped. -/
theorem Run_opens_browser_without_line :
    closedStdin.readBytes = ("", some "EOF") ∧
    (ConsoleConfig.Run closedStdin).run =
      (Except.ok (),
        [ConsoleEvent.listen 8080, ConsoleEvent.close 8080,
          ConsoleEvent.clientConfig, ConsoleEvent.newForConfig,
          ConsoleEvent.getDeployment "cosmonic-system" "console",
          ConsoleEvent.listPods "cosmonic-system" "app=console",
          ConsoleEvent.logPrintf "hostIP is 10.0.0.1:6443",
          ConsoleEvent.roundTripperFor,
          ConsoleEvent.portforwardNew "cosmonic-system" "console-0" "portforward" ["8080:8080"],
          ConsoleEvent.forwardPorts,
          ConsoleEvent.printf
            "Press enter to connect to the console at http://localhost:8080\nCtrl+C when finished\n",
          ConsoleEvent.readStdin,
          ConsoleEvent.openURL "http://localhost:8080",
          ConsoleEvent.park]) := by
  refine ⟨rfl, ?_⟩
  have hhost : stringsTrimLeft "https://10.0.0.1:6443" "htps:/" = "10.0.0.1:6443" := by decide
  have hport : toString (8080 : Nat) = "8080" := by decide
  rw [Run_run_eq, findLocalPort_first_free _ rfl]
  simp [ConsoleConfig.PortForward, ConsoleConfig.k8sClient, Act.run, Act.bind_apply,
    Act.andThen, Act.call_apply, Act.pure_apply, closedStdin, healthyCluster, promptLine,
    hhost, hport, cosmonicNamespace, consoleDeployment]

end KubectlCosmo
